import Mathlib

/-!
Shallow embedding of the TypeScript type-grammar parser of
`crates/swc_ecma_parser/src/parser/typescript.rs` (the unit under study).

Modelling choices, following the design notes of the specification:
* The token stream is an already-materialized buffer produced once by the
  collaborator lexer; the parser state holds the list of remaining tokens
  (the cursor), the context-flag set and the diagnostics sink.  Lexer
  token-context operations (`ts_in_no_context`, `set_expr_allowed`,
  `merge_lt_gt`) only influence lexing and are therefore identity on a
  pre-lexed buffer.
* Spans are not modelled; no claim under study concerns source positions.
* Numeric token values are modelled as integers (the claims only involve
  integral literals); `value.to_string()` becomes `Int` printing.
* Functions defined in other files of the repository (identifier, literal
  and expression parsing, formal parameters, patterns) are collaborators;
  each is modelled from the specification and marked as such.
* Recursion is made structural with an explicit fuel argument; running out
  of fuel yields the distinguished failure `PError.fuelExhausted`, which no
  theorem below ever equates with real parser behaviour.
-/

/-- Word classification: reserved words are lexed as keyword tokens, every
other word as an identifier token.  Used to mirror the distinction between
`Token::Word(Word::Ident(..))` and keyword tokens in the source. -/
def reservedWords : List String :=
  ["break", "case", "catch", "class", "const", "continue", "debugger",
   "default", "delete", "do", "else", "enum", "export", "extends", "false",
   "finally", "for", "function", "if", "import", "in", "instanceof", "let",
   "new", "null", "return", "super", "switch", "this", "throw", "true",
   "try", "typeof", "var", "void", "while", "with", "yield", "await"]

/-- Tokens delivered by the collaborator lexer, restricted to the alphabet
the type grammar inspects. -/
inductive Token where
  | word (sym : String)
  | num (value : Int) (raw : String)
  | bigint (value : Int) (raw : String)
  | str (value : String) (raw : String)
  | tplElement (raw : String) (tail : Bool)
  | backtick
  | dollarBrace
  | lparen
  | rparen
  | lbrace
  | rbrace
  | lbracket
  | rbracket
  | ltTok
  | gtTok
  | ltlt
  | comma
  | semi
  | colon
  | question
  | dot
  | dotDotDot
  | eqTok
  | arrow
  | minus
  | plus
  | pipe
  | amp
  | hash
  | star
  deriving DecidableEq, Repr

/-- One entry of the token buffer: the token plus the lexer's
"line break immediately before this token" flag. -/
structure TokItem where
  nl : Bool
  tok : Token
  deriving DecidableEq, Repr

/-- The parser context-flag set (the flags relevant to the unit under
study; a bitset in the source). -/
structure Ctx where
  ignoreError : Bool := false
  in_type : Bool := false
  disallowConditionalTypes : Bool := false
  inPropertyName : Bool := false
  shouldNotLexLtOrGtAsType : Bool := false
  deriving DecidableEq, Repr

/-- Diagnostics recorded in the sink / carried by hard failures
(`SyntaxError` variants used by the embedded functions). -/
inductive SynErr where
  | ts1003
  | ts1005
  | ts1096
  | ts1141
  | ts1164
  | ts2369
  | ts2452
  | ts1029 (a b : String)
  | ts1030 (a : String)
  | ts1273 (a : String)
  | ts1274 (a : String)
  | ts1277 (a : String)
  | tsRequiredAfterOptional
  | readOnlyMethod
  | getterSetterCannotBeReadonly
  | setterParamRequired
  | privateNameInInterface
  | expectedToken (t : Token)
  | expectedIdent
  | expectedSemi
  | unexpectedEof
  | unexpectedTok (expected : String)
  deriving DecidableEq, Repr

/-- Hard-failure payload: a syntax error, or the fuel sentinel of the
embedding. -/
inductive PError where
  | syn (e : SynErr)
  | fuelExhausted
  deriving DecidableEq, Repr

/-- Live parser state: remaining token buffer (cursor), context flags and
the diagnostics sink.  Snapshots taken by the speculative engine are
independent copies of this whole record, as the specification requires. -/
structure PState where
  tokens : List TokItem
  ctx : Ctx := {}
  errors : List SynErr := []
  importAttributesSyntax : Bool := false
  deriving DecidableEq, Repr

/-- Outcome of running a parsing operation: `PResult<T>` of the source,
with the mutated state threaded explicitly (on a hard failure the Rust
parser keeps its partially advanced state; only speculation restores). -/
inductive PRes (α : Type) where
  | ok (a : α) (s : PState)
  | err (e : PError) (s : PState)

/-- Final state of an outcome, whichever branch occurred. -/
def PRes.state {α : Type} : PRes α → PState
  | .ok _ s => s
  | .err _ s => s

/-- Current token (`cur!`). -/
def PState.cur (s : PState) : Option Token :=
  s.tokens.head?.map TokItem.tok

/-- One-token lookahead (`peeked_is!`). -/
def PState.peek (s : PState) : Option Token :=
  (s.tokens.drop 1).head?.map TokItem.tok

/-- Line break immediately before the current token. -/
def PState.hadLineBreakBeforeCur (s : PState) : Bool :=
  match s.tokens.head? with
  | some it => it.nl
  | none => false

/-- Advance past the current token (`bump!`). -/
def PState.bump (s : PState) : PState :=
  { s with tokens := s.tokens.tail }

/-- `is!(self, tok)`. -/
def PState.isTok (s : PState) (t : Token) : Bool :=
  s.cur = some t

/-- `is!(self, "word")` -- the current token is the given word. -/
def PState.isWord (s : PState) (sym : String) : Bool :=
  s.cur = some (Token.word sym)

/-- `peeked_is!(self, tok)`. -/
def PState.peekIsTok (s : PState) (t : Token) : Bool :=
  s.peek = some t

/-- `peeked_is!(self, "word")`. -/
def PState.peekIsWord (s : PState) (sym : String) : Bool :=
  s.peek = some (Token.word sym)

/-- A word token that is lexed as an identifier (not reserved). -/
def Token.isIdentTok : Token → Bool
  | .word sym => !(reservedWords.contains sym)
  | _ => false

/-- `is!(self, IdentName)`: any word token (identifier or keyword). -/
def PState.isIdentName (s : PState) : Bool :=
  match s.cur with
  | some (Token.word _) => true
  | _ => false

/-- `is!(self, IdentRef)`: a word token usable as an identifier
reference (not a reserved word). -/
def PState.isIdentRef (s : PState) : Bool :=
  match s.cur with
  | some t => t.isIdentTok
  | none => false

/-- `eat!(self, tok)`: consume the current token if it matches. -/
def PState.eat (s : PState) (t : Token) : Bool × PState :=
  if s.isTok t then (true, s.bump) else (false, s)

/-- `eat!(self, "word")`. -/
def PState.eatWord (s : PState) (sym : String) : Bool × PState :=
  s.eat (Token.word sym)

/-- Modelled from the spec: `emit_err` appends a diagnostic to the shared
sink unless the `ignore-errors` context flag is active ("whether
diagnostics emitted during this subtree are actually recorded").  The
sink itself lives outside the unit under study. -/
def PState.emit_err (s : PState) (e : SynErr) : PState :=
  if s.ctx.ignoreError then s else { s with errors := s.errors ++ [e] }

/-- `store!(self, tok)`: push a token back so it becomes the current one
(used by the enum-member separator recovery). -/
def PState.store (s : PState) (t : Token) : PState :=
  { s with tokens := ⟨false, t⟩ :: s.tokens }

/-- `expect!(self, tok)`: consume the token or fail hard. -/
def pExpect (t : Token) (s : PState) : PRes Unit :=
  if s.isTok t then .ok () s.bump else .err (.syn (.expectedToken t)) s

/-- `expect!(self, "word")`. -/
def pExpectWord (sym : String) (s : PState) : PRes Unit :=
  pExpect (Token.word sym) s

/-- `self.with_ctx(ctx).parse_with(body)`: run the body under a modified
flag set and restore the previous flag set on every exit path (scoped
acquisition/release, also on failure). -/
def with_ctx {α : Type} (newCtx : Ctx) (body : PState → PRes α) (s : PState) : PRes α :=
  let saved := s.ctx
  match body { s with ctx := newCtx } with
  | .ok a s1 => .ok a { s1 with ctx := saved }
  | .err e s1 => .err e { s1 with ctx := saved }

/-- `self.in_type().parse_with(body)`: `with_ctx` adding the `in-type`
flag. -/
def in_type {α : Type} (body : PState → PRes α) (s : PState) : PRes α :=
  with_ctx { s.ctx with in_type := true } body s

/-- `tsTryParse` (`try_parse_ts`, lines 623-659): take an independent
snapshot, mark it with the ignore-errors flag, run `op` on the snapshot.
On `Ok(Some(v))` commit the snapshot (restoring the previous
ignore-errors bit) and return the value; on `Ok(None)` or `Err(..)`
discard the snapshot entirely. -/
def try_parse_ts {α : Type} (op : PState → PRes (Option α)) (s : PState) :
    Option α × PState :=
  let prevIgnoreError := s.ctx.ignoreError
  match op { s with ctx := { s.ctx with ignoreError := true } } with
  | .ok (some v) s1 =>
      (some v, { s1 with ctx := { s1.ctx with ignoreError := prevIgnoreError } })
  | .ok none _ => (none, s)
  | .err _ _ => (none, s)

/-- `tsTryParse` (`try_parse_ts_bool`, lines 571-593): the thin wrapper
committing only when `op` produces `Ok(Some(true))`. -/
def try_parse_ts_bool (op : PState → PRes (Option Bool)) (s : PState) :
    Bool × PState :=
  let prevIgnoreError := s.ctx.ignoreError
  match op { s with ctx := { s.ctx with ignoreError := true } } with
  | .ok (some true) s1 =>
      (true, { s1 with ctx := { s1.ctx with ignoreError := prevIgnoreError } })
  | .ok _ _ => (false, s)
  | .err _ _ => (false, s)

/-- `ts_look_ahead` (lines 1221-1230): run `op` on an ignore-errors
snapshot and keep only its answer; the live state is never replaced. -/
def ts_look_ahead {α : Type} (op : PState → PRes α) (s : PState) :
    Except PError α :=
  match op { s with ctx := { s.ctx with ignoreError := true } } with
  | .ok a _ => .ok a
  | .err e _ => .error e

/-! ## AST data model (shapes of the nodes produced by the unit) -/

/-- `TsKeywordTypeKind`. -/
inductive TsKeywordTypeKind where
  | tsVoidKeyword
  | tsNullKeyword
  | tsAnyKeyword
  | tsBooleanKeyword
  | tsBigIntKeyword
  | tsNeverKeyword
  | tsNumberKeyword
  | tsObjectKeyword
  | tsStringKeyword
  | tsSymbolKeyword
  | tsUnknownKeyword
  | tsUndefinedKeyword
  | tsIntrinsicKeyword
  deriving DecidableEq, Repr

/-- `TsTypeOperatorOp`. -/
inductive TsTypeOperatorOp where
  | keyOf
  | unique
  | readOnly
  deriving DecidableEq, Repr

/-- `TruePlusMinus` (mapped-type modifier tri-state). -/
inductive TruePlusMinus where
  | truePM
  | plus
  | minus
  deriving DecidableEq, Repr

/-- `UnionOrIntersection` (tag of the shared n-ary routine). -/
inductive UnionOrIntersection where
  | union
  | intersection
  deriving DecidableEq, Repr

/-- `ParsingContext` (list-kind tag of the delimited-list family). -/
inductive ParsingContext where
  | enumMembers
  | heritageClauseElement
  | tupleElementTypes
  | typeParametersOrArguments
  | typeMembers
  deriving DecidableEq, Repr

/-- `SignatureParsingMode`. -/
inductive SignatureParsingMode where
  | tsCallSignatureDeclaration
  | tsConstructSignatureDeclaration
  deriving DecidableEq, Repr

/-- `TsEntityName`: a dotted identifier chain. -/
inductive TsEntityName where
  | ident (sym : String)
  | qualified (left : TsEntityName) (right : String)
  deriving DecidableEq, Repr

/-- Runtime literal values (collaborator `Lit`), as far as the unit
inspects them. -/
inductive Lit where
  | num (value : Int) (raw : Option String)
  | bigint (value : Int) (raw : Option String)
  | str (value : String) (raw : Option String)
  | bool (value : Bool)
  deriving DecidableEq, Repr

/-- Collaborator expression nodes, modelled from the spec as far as the
unit stores them (enum initializers, member keys, private names). -/
inductive Expr where
  | identE (sym : String)
  | litE (l : Lit)
  | unaryE (op : String) (arg : Expr)
  | privateNameE (sym : String)
  | objectE
  deriving DecidableEq, Repr

/-- Template-literal chunk (collaborator `TplElement`). -/
structure TplElem where
  raw : String
  tail : Bool
  deriving DecidableEq, Repr

/-- `TsThisTypeOrIdent`. -/
inductive TsThisTypeOrIdent where
  | thisType
  | identName (sym : String)
  deriving DecidableEq, Repr

mutual

/-- `TsType`: the closed set of type-node variants produced by the type
grammar engine. -/
inductive TsType where
  | keyword (kind : TsKeywordTypeKind)
  | thisType
  | litType (lit : TsLit)
  | ref (typeName : TsEntityName) (typeParams : Option (List TsType))
  | union (types : List TsType)
  | intersection (types : List TsType)
  | conditional (checkType extendsType trueType falseType : TsType)
  | tupleType (elemTypes : List TsTupleElement)
  | optionalType (typeAnn : TsType)
  | restType (typeAnn : TsType)
  | arrayType (elemType : TsType)
  | indexedAccessType (readonly : Bool) (objType indexType : TsType)
  | typeOperator (op : TsTypeOperatorOp) (typeAnn : TsType)
  | inferType (typeParam : TsTypeParam)
  | parenthesized (typeAnn : TsType)
  | fnType (typeParams : Option (List TsTypeParam)) (params : List TsFnParam)
      (typeAnn : TsType)
  | constructorType (typeParams : Option (List TsTypeParam))
      (params : List TsFnParam) (typeAnn : TsType) (isAbstract : Bool)
  | typeQuery (exprName : TsTypeQueryExpr) (typeArgs : Option (List TsType))
  | importType (arg : String) (argRaw : Option String)
      (qualifier : Option TsEntityName) (typeArgs : Option (List TsType))
      (attributes : Bool)
  | mappedType (readonly : Option TruePlusMinus) (typeParam : TsTypeParam)
      (nameType : Option TsType) (optional : Option TruePlusMinus)
      (typeAnn : Option TsType)
  | typeLit (members : List TsTypeElement)
  | typePredicate (asserts : Bool) (paramName : TsThisTypeOrIdent)
      (typeAnn : Option TsType)

/-- `TsLit` of a literal type node (template literal types carry embedded
types, hence the mutual recursion). -/
inductive TsLit where
  | number (value : Int) (raw : Option String)
  | bigInt (value : Int) (raw : Option String)
  | str (value : String) (raw : Option String)
  | bool (value : Bool)
  | tpl (types : List TsType) (quasis : List TplElem)

/-- `TsTypeQueryExpr`: operand of `typeof`. -/
inductive TsTypeQueryExpr where
  | entityName (name : TsEntityName)
  | importType (arg : String) (argRaw : Option String)
      (qualifier : Option TsEntityName) (typeArgs : Option (List TsType))
      (attributes : Bool)

/-- Collaborator binding pattern, modelled from the spec as far as the
unit stores it (tuple labels, parameter starts). -/
inductive Pat where
  | identPat (sym : String) (optional : Bool) (typeAnn : Option TsType)
  | restPat (arg : Pat) (typeAnn : Option TsType)
  | arrayPat
  | objectPat

/-- `TsTupleElement`: optional label plus the element type. -/
inductive TsTupleElement where
  | mk (label : Option Pat) (ty : TsType)

/-- `TsTypeParam` (type parameter declaration). -/
inductive TsTypeParam where
  | mk (name : String) (isIn isOut isConst : Bool)
      (constraint : Option TsType) (defaultTy : Option TsType)

/-- `TsFnParam`. -/
inductive TsFnParam where
  | identFn (sym : String) (optional : Bool) (typeAnn : Option TsType)
  | arrayFn
  | objectFn
  | restFn (arg : Pat) (typeAnn : Option TsType)

/-- `TsTypeElement` (interface/object-literal member). -/
inductive TsTypeElement where
  | callSignatureDecl (typeParams : Option (List TsTypeParam))
      (params : List TsFnParam) (typeAnn : Option TsType)
  | constructSignatureDecl (typeParams : Option (List TsTypeParam))
      (params : List TsFnParam) (typeAnn : Option TsType)
  | indexSignature (readonly isStatic : Bool) (params : List TsFnParam)
      (typeAnn : Option TsType)
  | getterSignature (key : Expr) (computed : Bool) (typeAnn : Option TsType)
  | setterSignature (key : Expr) (computed : Bool) (param : TsFnParam)
  | propertySignature (readonly : Bool) (key : Expr) (computed : Bool)
      (optional : Bool) (typeAnn : Option TsType)
  | methodSignature (key : Expr) (computed : Bool) (optional : Bool)
      (typeParams : Option (List TsTypeParam)) (params : List TsFnParam)
      (typeAnn : Option TsType)

end

/-- The element type stored in a tuple element. -/
def TsTupleElement.ty : TsTupleElement → TsType
  | .mk _ t => t

/-- The label stored in a tuple element. -/
def TsTupleElement.label : TsTupleElement → Option Pat
  | .mk l _ => l

/-- The constraint stored in a type parameter. -/
def TsTypeParam.constraint : TsTypeParam → Option TsType
  | .mk _ _ _ _ c _ => c

/-- The name stored in a type parameter. -/
def TsTypeParam.name : TsTypeParam → String
  | .mk n _ _ _ _ _ => n

/-- `TsEnumMemberId`. -/
inductive TsEnumMemberId where
  | ident (sym : String)
  | str (value : String) (raw : Option String)
  deriving DecidableEq, Repr

/-- `TsEnumMember`: member id plus optional initializer expression. -/
structure TsEnumMember where
  id : TsEnumMemberId
  init : Option Expr
  deriving DecidableEq, Repr

/-- `TsEnumDecl`. -/
structure TsEnumDecl where
  declare : Bool
  isConst : Bool
  id : String
  members : List TsEnumMember
  deriving DecidableEq, Repr

/-- `TsInferType` (span dropped). -/
structure TsInferType where
  typeParam : TsTypeParam

/-- `TsImportType` result record of `parse_ts_import_type`. -/
structure TsImportTypeNode where
  arg : String
  argRaw : Option String
  qualifier : Option TsEntityName
  typeArgs : Option (List TsType)
  attributes : Bool

/-! ## Collaborator routines, modelled from the spec (section 6 of the
specification: identifier/name parsing, literal parsing, expression
parsing, formal parameters, destructuring patterns, template elements).
These live in other files of the repository, outside the unit under
study. -/

/-- Modelled from the spec: collaborator `parse_ident_name` -- any word
token (identifier or keyword) is accepted as an identifier name and
consumed; anything else is a hard failure. -/
def parse_ident_name (s : PState) : PRes String :=
  match s.cur with
  | some (Token.word sym) => .ok sym s.bump
  | _ => .err (.syn .expectedIdent) s

/-- Modelled from the spec: collaborator `parse_ident` for a plain
identifier reference -- reserved words are rejected. -/
def parse_ident (s : PState) : PRes String :=
  match s.cur with
  | some (Token.word sym) =>
      if reservedWords.contains sym then .err (.syn .expectedIdent) s
      else .ok sym s.bump
  | _ => .err (.syn .expectedIdent) s

/-- Modelled from the spec: collaborator `parse_lit` -- a literal token
(number, bigint, string, `true`, `false`) becomes the corresponding
literal value and is consumed. -/
def parse_lit (s : PState) : PRes Lit :=
  match s.cur with
  | some (Token.num v raw) => .ok (.num v (some raw)) s.bump
  | some (Token.bigint v raw) => .ok (.bigint v (some raw)) s.bump
  | some (Token.str v raw) => .ok (.str v (some raw)) s.bump
  | some (Token.word sym) =>
      if sym = "true" then .ok (.bool true) s.bump
      else if sym = "false" then .ok (.bool false) s.bump
      else .err (.syn (.unexpectedTok "literal")) s
  | _ => .err (.syn (.unexpectedTok "literal")) s

/-- Modelled from the spec: the collaborator expression parser, as far as
enum initializers and the expression-position contrast of literal folding
need it.  In expression position a leading `-` stays an explicit
unary-minus expression over the literal operand ("the same source text in
an expression position keeps the unary operator explicit"). -/
def parse_unary_expr (s : PState) : PRes Expr :=
  match s.cur with
  | some Token.minus =>
      (match parse_lit s.bump with
       | .ok l s1 => .ok (.unaryE "-" (.litE l)) s1
       | .err e s1 => .err e s1)
  | some (Token.word sym) =>
      if s.isIdentRef then .ok (.identE sym) s.bump
      else (match parse_lit s with
            | .ok l s1 => .ok (.litE l) s1
            | .err e s1 => .err e s1)
  | _ =>
      (match parse_lit s with
       | .ok l s1 => .ok (.litE l) s1
       | .err e s1 => .err e s1)

/-- Modelled from the spec: collaborator `parse_assignment_expr` (used
for enum initializers and computed keys), reduced to the expression forms
the claims exercise. -/
def parse_assignment_expr (s : PState) : PRes Expr :=
  parse_unary_expr s

/-- Modelled from the spec: collaborator `parse_expr` (full expression
parsing). -/
def parse_expr (s : PState) : PRes Expr :=
  parse_assignment_expr s

/-- Modelled from the spec: collaborator `parse_new_expr`, used by the
property-name parser for numeric and string literal keys, where it
produces the literal expression. -/
def parse_new_expr (s : PState) : PRes Expr :=
  match parse_lit s with
  | .ok l s1 => .ok (.litE l) s1
  | .err e s1 => .err e s1

/-- Modelled from the spec: collaborator `parse_maybe_private_name`.
Returns `(isPrivate, name)`. -/
def parse_maybe_private_name (s : PState) : PRes (Bool × String) :=
  if s.isTok .hash then
    match parse_ident_name s.bump with
    | .ok sym s1 => .ok (true, sym) s1
    | .err e s1 => .err e s1
  else
    match parse_ident_name s with
    | .ok sym s1 => .ok (false, sym) s1
    | .err e s1 => .err e s1

/-- Skip tokens until the matching close bracket, tracking nesting of the
given bracket pair (helper of the modelled destructuring-pattern
collaborator). -/
def skipBalanced (openTok closeTok : Token) : Nat → Nat → PState → PRes Unit
  | 0, _, s => .err .fuelExhausted s
  | _, 0, s => .ok () s
  | fuel+1, depth+1, s =>
      match s.cur with
      | none => .err (.syn .unexpectedEof) s
      | some t =>
          if t = closeTok then skipBalanced openTok closeTok fuel depth s.bump
          else if t = openTok then skipBalanced openTok closeTok fuel (depth+2) s.bump
          else skipBalanced openTok closeTok fuel (depth+1) s.bump

/-- Modelled from the spec: collaborator `parse_binding_pat_or_ident`
(destructuring-pattern parsing), used only inside the bounded
function-type lookahead where solely success or failure matters. -/
def parse_binding_pat_or_ident (fuel : Nat) (s : PState) : PRes Pat :=
  match s.cur with
  | some (Token.word sym) =>
      if Token.isIdentTok (Token.word sym) then .ok (.identPat sym false none) s.bump
      else .err (.syn (.unexpectedTok "binding pattern")) s
  | some Token.lbrace =>
      (match skipBalanced .lbrace .rbrace fuel 1 s.bump with
       | .ok _ s1 => .ok .objectPat s1
       | .err e s1 => .err e s1)
  | some Token.lbracket =>
      (match skipBalanced .lbracket .rbracket fuel 1 s.bump with
       | .ok _ s1 => .ok .arrayPat s1
       | .err e s1 => .err e s1)
  | _ => .err (.syn (.unexpectedTok "binding pattern")) s

/-- Modelled from the spec: collaborator `parse_object` for the
`with`-attributes object of an import type; the object literal is
consumed as balanced braces. -/
def parse_object_expr (fuel : Nat) (s : PState) : PRes Expr :=
  if s.isTok .lbrace then
    match skipBalanced .lbrace .rbrace fuel 1 s.bump with
    | .ok _ s1 => .ok .objectE s1
    | .err e s1 => .err e s1
  else .err (.syn (.expectedToken .lbrace)) s

/-- Modelled from the spec: collaborator `parse_tpl_element`
(template-element parsing: literal text chunks interleaved with embedded
types). -/
def parse_tpl_element (s : PState) : PRes TplElem :=
  match s.cur with
  | some (Token.tplElement raw tail) => .ok ⟨raw, tail⟩ s.bump
  | _ => .err (.syn (.unexpectedTok "template element")) s

/-- Modelled from the spec: collaborator `eat_any_ts_modifier` --
consumes one accessibility/readonly modifier when the next token can
start a binding. -/
def eat_any_ts_modifier (s : PState) : PRes Bool :=
  let hasModifier :=
    (match s.cur with
     | some (Token.word sym) =>
         decide (sym = "public" || sym = "private" || sym = "protected" ||
           sym = "readonly")
     | _ => false) &&
    (s.peekIsTok .lbrace || s.peekIsTok .lbracket ||
      (match s.peek with
       | some (Token.word _) => true
       | _ => false))
  if hasModifier then .ok true s.bump else .ok false s

/-! ## Non-recursive routines of the unit (embedded from
`parser/typescript.rs`) -/

/-- The current token is a string literal token. -/
def PState.isStrTok (s : PState) : Bool :=
  match s.cur with
  | some (Token.str _ _) => true
  | _ => false

/-- The current token is a numeric literal token. -/
def PState.isNumTok (s : PState) : Bool :=
  match s.cur with
  | some (Token.num _ _) => true
  | _ => false

/-- The current token is a bigint literal token. -/
def PState.isBigIntTok (s : PState) : Bool :=
  match s.cur with
  | some (Token.bigint _ _) => true
  | _ => false

/-- `tsNextTokenCanFollowModifier` (lines 12-23): step past the modifier
word and check that, with no intervening line break, the next token can
start a member. -/
def ts_next_token_can_follow_modifier (s : PState) : PRes Bool :=
  let s1 := s.bump
  .ok (!s1.hadLineBreakBeforeCur &&
    (s1.isTok .lbracket || s1.isTok .lbrace || s1.isTok .star ||
      s1.isTok .dotDotDot || s1.isTok .hash || s1.isIdentName ||
      s1.isStrTok || s1.isNumTok || s1.isBigIntTok)) s1

/-- `tsParseModifier` (lines 28-59): consume (speculatively) a modifier
word drawn from the allowed list. -/
def parse_ts_modifier (allowedModifiers : List String)
    (stopOnStartOfClassStaticBlocks : Bool) (s : PState) :
    PRes (Option String) :=
  match s.cur with
  | none => .err (.syn .unexpectedEof) s
  | some t =>
      match t with
      | Token.word sym =>
          if (t.isIdentTok || sym = "in" || sym = "const") &&
              allowedModifiers.contains sym then
            if stopOnStartOfClassStaticBlocks && s.isWord "static" &&
                s.peekIsTok .lbrace then
              .ok none s
            else
              let r := try_parse_ts_bool (fun st =>
                match ts_next_token_can_follow_modifier st with
                | .ok v st1 => .ok (some v) st1
                | .err e st1 => .err e st1) s
              if r.1 then .ok (some sym) r.2 else .ok none r.2
          else .ok none s
      | _ => .ok none s

/-- `tsIsListTerminator` (lines 62-73). -/
def is_ts_list_terminator (kind : ParsingContext) (s : PState) : Bool :=
  match kind with
  | .enumMembers => s.isTok .rbrace
  | .typeMembers => s.isTok .rbrace
  | .heritageClauseElement =>
      s.isTok .lbrace || s.isWord "implements" || s.isWord "extends"
  | .tupleElementTypes => s.isTok .rbracket
  | .typeParametersOrArguments => s.isTok .gtTok

/-- Accumulating loop of `tsParseList` (lines 76-89). -/
def parse_ts_list_loop {α : Type} (kind : ParsingContext)
    (parse_element : PState → PRes α) :
    Nat → List α → PState → PRes (List α)
  | 0, _, s => .err .fuelExhausted s
  | fuel+1, buf, s =>
      if is_ts_list_terminator kind s then .ok buf s
      else
        match parse_element s with
        | .ok a s1 => parse_ts_list_loop kind parse_element fuel (buf ++ [a]) s1
        | .err e s1 => .err e s1

/-- `tsParseList` (lines 76-89): repeat the element until the terminator
of the list kind holds. -/
def parse_ts_list {α : Type} (kind : ParsingContext)
    (parse_element : PState → PRes α) (fuel : Nat) (s : PState) :
    PRes (List α) :=
  parse_ts_list_loop kind parse_element fuel [] s

/-- Accumulating loop of `tsParseDelimitedList` (lines 108-151):
element, then comma / terminator / enum-member comma recovery. -/
def parse_ts_delimited_list_loop {α : Type} (kind : ParsingContext)
    (parse_element : PState → PRes α) :
    Nat → List α → PState → PRes (List α)
  | 0, _, s => .err .fuelExhausted s
  | fuel+1, buf, s =>
      if is_ts_list_terminator kind s then .ok buf s
      else
        match parse_element s with
        | .err e s1 => .err e s1
        | .ok a s1 =>
            let buf1 := buf ++ [a]
            let r := s1.eat .comma
            if r.1 then parse_ts_delimited_list_loop kind parse_element fuel buf1 r.2
            else if is_ts_list_terminator kind r.2 then .ok buf1 r.2
            else if kind = ParsingContext.enumMembers then
              parse_ts_delimited_list_loop kind parse_element fuel buf1
                (r.2.emit_err (.expectedToken .comma))
            else
              .err (.syn (.expectedToken .comma)) r.2

/-- `tsParseDelimitedList` (lines 92-151). -/
def parse_ts_delimited_list {α : Type} (kind : ParsingContext)
    (parse_element : PState → PRes α) (fuel : Nat) (s : PState) :
    PRes (List α) :=
  parse_ts_delimited_list_loop kind parse_element fuel [] s

/-- `parse_ts_bracketed_list` (lines 153-182): optionally consume the
opening `[`/`<`, delegate to the delimited list, require the matching
`]`/`>`. -/
def parse_ts_bracketed_list {α : Type} (kind : ParsingContext)
    (parse_element : PState → PRes α) (bracket : Bool)
    (skipFirstToken : Bool) (fuel : Nat) (s : PState) : PRes (List α) :=
  let opened : PRes Unit :=
    if !skipFirstToken then
      if bracket then pExpect .lbracket s else pExpect .ltTok s
    else .ok () s
  match opened with
  | .err e s1 => .err e s1
  | .ok _ s1 =>
      match parse_ts_delimited_list kind parse_element fuel s1 with
      | .err e s2 => .err e s2
      | .ok resList s2 =>
          match (if bracket then pExpect .rbracket s2 else pExpect .gtTok s2) with
          | .err e s3 => .err e s3
          | .ok _ s3 => .ok resList s3

/-- Dotted-chain loop of `tsParseEntityName` (lines 197-212). -/
def parse_ts_entity_name_loop (allowReservedWords : Bool) :
    Nat → TsEntityName → PState → PRes TsEntityName
  | 0, _, s => .err .fuelExhausted s
  | fuel+1, entity, s =>
      let r := s.eat .dot
      if r.1 then
        if !(r.2.isTok .hash) && !r.2.isIdentName then
          .ok entity (r.2.emit_err .ts1003)
        else
          match (if allowReservedWords then parse_ident_name r.2
                 else parse_ident r.2) with
          | .ok right s2 =>
              parse_ts_entity_name_loop allowReservedWords fuel
                (.qualified entity right) s2
          | .err e s2 => .err e s2
      else .ok entity s

/-- `tsParseEntityName` (lines 185-215): identifier chain; a leading
`void` identifier draws a TS1005 diagnostic. -/
def parse_ts_entity_name (fuel : Nat) (allowReservedWords : Bool)
    (s : PState) : PRes TsEntityName :=
  match parse_ident_name s with
  | .err e s1 => .err e s1
  | .ok init s1 =>
      let s2 := if init = "void" then s1.emit_err .ts1005 else s1
      parse_ts_entity_name_loop allowReservedWords fuel (.ident init) s2

/-- `tsParseThisTypeNode` (lines 276-285). -/
def parse_ts_this_type_node (s : PState) : PRes Unit :=
  pExpectWord "this" s

/-- `tsIsStartOfMappedType` (lines 1596-1616). -/
def is_ts_start_of_mapped_type (s : PState) : PRes Bool :=
  let s1 := s.bump
  let plusMinus := s1.eat .plus
  let r := if plusMinus.1 then plusMinus else s1.eat .minus
  if r.1 then .ok (r.2.isWord "readonly") r.2
  else
    let s2 := if r.2.isWord "readonly" then r.2.bump else r.2
    if !(s2.isTok .lbracket) then .ok false s2
    else
      let s3 := s2.bump
      if !s3.isIdentRef then .ok false s3
      else .ok (s3.bump.isWord "in") s3.bump

/-- `tsIsStartOfConstructSignature` (lines 1564-1570). -/
def is_ts_start_of_construct_signature (s : PState) : PRes Bool :=
  let s1 := s.bump
  .ok (s1.isTok .lparen || s1.isTok .ltTok) s1

/-- `tsIsUnambiguouslyIndexSignature` (lines 1334-1342): after `[`, an
identifier reference followed by `:` (or `,` for error recovery). -/
def is_ts_unambiguously_index_signature (s : PState) : PRes Bool :=
  match pExpect .lbracket s with
  | .err e s1 => .err e s1
  | .ok _ s1 =>
      if s1.isIdentRef then
        .ok (s1.bump.isTok .colon || s1.bump.isTok .comma) s1.bump
      else .ok false s1

/-- `tsSkipParameterStart` (lines 1259-1274). -/
def skip_ts_parameter_start (fuel : Nat) (s : PState) : PRes Bool :=
  match eat_any_ts_modifier s with
  | .err e s1 => .err e s1
  | .ok _ s1 =>
      if s1.isIdentName || s1.isWord "this" then .ok true s1.bump
      else if s1.isTok .lbrace || s1.isTok .lbracket then
        match parse_binding_pat_or_ident fuel s1 with
        | .ok _ s2 => .ok true s2
        | .err _ s2 => .ok false s2
      else .ok false s1

/-- `tsIsUnambiguouslyStartOfFunctionType` (lines 1232-1256): the bounded
speculative scan after `(`. -/
def is_ts_unambiguously_start_of_fn_type (fuel : Nat) (s : PState) :
    PRes Bool :=
  match pExpect .lparen s with
  | .err e s1 => .err e s1
  | .ok _ s1 =>
      if s1.isTok .rparen || s1.isTok .dotDotDot then .ok true s1
      else
        match skip_ts_parameter_start fuel s1 with
        | .err e s2 => .err e s2
        | .ok skipped s2 =>
            if skipped then
              if s2.isTok .colon || s2.isTok .comma || s2.isTok .question ||
                  s2.isTok .eqTok then
                .ok true s2
              else
                let r := s2.eat .rparen
                if r.1 && r.2.isTok .arrow then .ok true r.2
                else .ok false r.2
            else .ok false s2

/-- `tsParseTypeMemberSemicolon` (lines 1277-1285): `,` or else a
required `;`. -/
def parse_ts_type_member_semicolon (s : PState) : PRes Unit :=
  let r := s.eat .comma
  if r.1 then .ok () r.2
  else pExpect .semi r.2

/-- `try_parse_ts_tuple_element_name` (lines 1733-1766): speculative
label pattern `...? name ?? :`, abandoned without consumption when the
pattern does not match. -/
def try_parse_ts_tuple_element_name (s : PState) : Option Pat × PState :=
  try_parse_ts (fun st =>
    let r := st.eat .dotDotDot
    let isRest := r.1
    match parse_ident_name r.2 with
    | .err e s1 => .err e s1
    | .ok sym s1 =>
        let q := s1.eat .question
        let identOptional := q.1
        match pExpect .colon q.2 with
        | .err e s2 => .err e s2
        | .ok _ s2 =>
            let identPat := Pat.identPat sym identOptional none
            .ok (some (if isRest then Pat.restPat identPat none else identPat)) s2) s

/-- Post-parse ordering validation of `tsParseTupleType`
(lines 1708-1725): rest elements are skipped; an optional element sets
the flag; a plain element after the flag is the defect. -/
def tuple_elems_check (seenOptional : Bool) : List TsTupleElement → Bool
  | [] => true
  | e :: rest =>
      match e.ty with
      | TsType.restType _ => tuple_elems_check seenOptional rest
      | TsType.optionalType _ => tuple_elems_check true rest
      | _ => if seenOptional then false else tuple_elems_check seenOptional rest

/-- `tsParseEnumMember` (lines 748-812): string/identifier member ids;
numeric-literal ids recover with TS2452 into a quoted string id;
computed ids recover with TS1164; a malformed separator recovers with
TS1005 and a stored comma. -/
def parse_ts_enum_member (s : PState) : PRes TsEnumMember :=
  let idRes : PRes TsEnumMemberId :=
    match s.cur with
    | none => .err (.syn .unexpectedEof) s
    | some (Token.str _ _) =>
        (match parse_lit s with
         | .ok (Lit.str v raw) s1 => .ok (.str v raw) s1
         | .ok _ s1 => .err (.syn (.unexpectedTok "string literal")) s1
         | .err e s1 => .err e s1)
    | some (Token.num value raw) =>
        let newRaw := "\"" ++ raw ++ "\""
        let s1 := s.bump
        let s2 := s1.emit_err .ts2452
        .ok (.str (toString value) (some newRaw)) s2
    | some Token.lbracket =>
        (match pExpect .lbracket s with
         | .err e s1 => .err e s1
         | .ok _ s1 =>
             match parse_expr s1 with
             | .err e s2 => .err e s2
             | .ok _ s2 =>
                 let s3 := s2.emit_err .ts1164
                 match pExpect .rbracket s3 with
                 | .err e s4 => .err e s4
                 | .ok _ s4 => .ok (.ident "") s4)
    | some _ =>
        (match parse_ident_name s with
         | .ok sym s1 => .ok (.ident sym) s1
         | .err e s1 => .err e s1)
  match idRes with
  | .err e s1 => .err e s1
  | .ok id s1 =>
      let r := s1.eat .eqTok
      if r.1 then
        match parse_assignment_expr r.2 with
        | .err e s2 => .err e s2
        | .ok e2 s2 => .ok ⟨id, some e2⟩ s2
      else if r.2.isTok .comma || r.2.isTok .rbrace then
        .ok ⟨id, none⟩ r.2
      else
        let s2 := r.2.bump
        let s3 := s2.store .comma
        let s4 := s3.emit_err .ts1005
        .ok ⟨id, none⟩ s4

/-- `tsParseEnumDeclaration` (lines 815-831). -/
def parse_ts_enum_decl (fuel : Nat) (isConst : Bool) (s : PState) :
    PRes TsEnumDecl :=
  match parse_ident_name s with
  | .err e s1 => .err e s1
  | .ok id s1 =>
      match pExpect .lbrace s1 with
      | .err e s2 => .err e s2
      | .ok _ s2 =>
          match parse_ts_delimited_list .enumMembers parse_ts_enum_member
              fuel s2 with
          | .err e s3 => .err e s3
          | .ok members s3 =>
              match pExpect .rbrace s3 with
              | .err e s4 => .err e s4
              | .ok _ s4 =>
                  .ok { declare := false, isConst, id, members } s4

/-! ## Monadic plumbing and remaining cursor helpers -/

/-- Sequencing of `PResult` computations (`?` of the source): a hard
failure short-circuits, keeping the partially advanced state. -/
def PRes.bind {α β : Type} (r : PRes α) (f : α → PState → PRes β) : PRes β :=
  match r with
  | .ok a s => f a s
  | .err e s => .err e s

/-- `has_linebreak_between_cur_and_peeked`. -/
def PState.hasLinebreakBetweenCurAndPeeked (s : PState) : Bool :=
  match s.tokens with
  | _ :: it :: _ => it.nl
  | _ => false

/-- `cut_lshift`: the lexer splits a just-lexed `<<` token into two `<`
tokens and consumes the first (token-splitting interface of the
collaborator lexer, applied to the materialized buffer). -/
def PState.cutLshift (s : PState) : PState :=
  match s.tokens with
  | ⟨_, Token.ltlt⟩ :: rest => { s with tokens := ⟨false, Token.ltTok⟩ :: rest }
  | _ => s

/-- `parsePropertyName` (`parse_ts_property_name`, lines 1394-1420):
computed `[expr]` keys, literal keys via the collaborator expression
parser, or an identifier/private name (private names draw a recoverable
diagnostic but are still accepted). -/
def parse_ts_property_name (s : PState) : PRes (Bool × Expr) :=
  let r := s.eat .lbracket
  if r.1 then
    (parse_assignment_expr r.2).bind fun key s1 =>
    (pExpect .rbracket s1).bind fun _ s2 => .ok (true, key) s2
  else
    with_ctx { s.ctx with inPropertyName := true } (fun p =>
      match p.cur with
      | none => .err (.syn .unexpectedEof) p
      | some (Token.num _ _) =>
          (parse_new_expr p).bind fun e p1 => .ok (false, e) p1
      | some (Token.str _ _) =>
          (parse_new_expr p).bind fun e p1 => .ok (false, e) p1
      | some _ =>
          (parse_maybe_private_name p).bind fun pn p1 =>
          if pn.1 then
            .ok (false, Expr.privateNameE pn.2) (p1.emit_err .privateNameInInterface)
          else .ok (false, Expr.identE pn.2) p1) s

/-- `tsIsUnambiguouslyStartOfFunctionType` wrapper
(`is_ts_start_of_fn_type`, lines 1006-1014): `<` always starts a function
type; `(` starts one exactly when the bounded lookahead scan confirms
it. -/
def is_ts_start_of_fn_type (fuel : Nat) (s : PState) : PRes Bool :=
  if s.isTok .ltTok then .ok true s
  else if s.isTok .lparen then
    match ts_look_ahead (is_ts_unambiguously_start_of_fn_type fuel) s with
    | .ok b => .ok b s
    | .error e => .err e s
  else .ok false s


/-! ## The type grammar engine

The precedence chain is mutually recursive in the source (every level can
re-enter `parse_ts_type` through parentheses, brackets, annotations and
conditional branches).  The embedding ties that recursion through an
explicit knot: each routine receives `rec`, the bundle of the three
re-entry points of the chain (`parse_ts_type`,
`parse_ts_non_conditional_type`, `parse_ts_type_operator_or_higher`), and
the knot `ts_type_rec` instantiates `rec` one fuel step lower.  The
`fuel` argument of a routine only bounds its own internal loops. -/

/-- The three re-entry points of the precedence chain. -/
inductive TypeLevel where
  | full
  | nonConditional
  | operatorOrHigher
  deriving DecidableEq, Repr

/-- A bundle of the chain's re-entry points (instantiated by
`ts_type_rec`). -/
def TypeRec : Type := TypeLevel → PState → PRes TsType

/-- `tsParseTypeAnnotation` (`parse_ts_type_ann`, lines 662-685). -/
def parse_ts_type_ann (rec : TypeRec) (eatColon : Bool) (s : PState) : PRes TsType :=
  in_type (fun p =>
    (if eatColon then pExpect .colon p else .ok () p).bind fun _ p1 =>
    rec .full p1) s

/-- `tsEatThenParseType` (lines 688-703). -/
def eat_then_parse_ts_type (rec : TypeRec) (tokenToEat : Token) (s : PState) :
    PRes (Option TsType) :=
  in_type (fun p =>
    let r := p.eat tokenToEat
    if !r.1 then .ok none r.2
    else (rec .full r.2).bind fun ty p1 => .ok (some ty) p1) s

/-- `tsExpectThenParseType` (lines 706-728). -/
def expect_then_parse_ts_type (rec : TypeRec) (token : Token)
    (tokenStr : String) (s : PState) : PRes TsType :=
  in_type (fun p =>
    let r := p.eat token
    if !r.1 then .err (.syn (.unexpectedTok tokenStr)) r.2
    else rec .full r.2) s

/-- `tsTryParseTypeAnnotation` (lines 1988-1999). -/
def try_parse_ts_type_ann (rec : TypeRec) (s : PState) : PRes (Option TsType) :=
  if s.isTok .colon then
    (parse_ts_type_ann rec true s).bind fun t s1 => .ok (some t) s1
  else .ok none s

/-- `tsTryParseType` (lines 2002-2008). -/
def try_parse_ts_type (rec : TypeRec) (s : PState) : PRes (Option TsType) :=
  eat_then_parse_ts_type rec .colon s

/-- `tsParseTypeOrTypePredicateAnnotation` (lines 511-568). -/
def parse_ts_type_or_type_predicate_ann (rec : TypeRec) (returnToken : Token)
    (s : PState) : PRes TsType :=
  in_type (fun p =>
    let r := p.eat returnToken
    if !r.1 then .err (.syn (.expectedToken returnToken)) r.2
    else
      let p1 := r.2
      let hasTypePredAsserts := p1.isWord "asserts" &&
        (match p1.peek with
         | some t => t.isIdentTok
         | none => false)
      ((if hasTypePredAsserts then
          let p2 := p1.bump
          match p2.cur with
          | none => .err (.syn .unexpectedEof) p2
          | some _ => .ok () p2
        else .ok () p1 : PRes Unit)).bind fun _ p2 =>
      let hasTypePredIs := p2.isIdentRef && p2.peekIsWord "is" &&
        !p2.hasLinebreakBetweenCurAndPeeked
      if !(hasTypePredAsserts || hasTypePredIs) then
        parse_ts_type_ann rec false p2
      else
        (parse_ident_name p2).bind fun typePredVar p3 =>
        (if hasTypePredIs then
            (pExpectWord "is" p3).bind fun _ p4 =>
            (parse_ts_type_ann rec false p4).bind fun t p5 =>
            .ok (some t) p5
          else .ok none p3).bind fun typeAnn p4 =>
        .ok (.typePredicate hasTypePredAsserts (.identName typePredVar)
          typeAnn) p4) s

/-- `tsTryParseTypeOrTypePredicateAnnotation` (lines 1973-1984). -/
def try_parse_ts_type_or_type_predicate_ann (rec : TypeRec) (s : PState) :
    PRes (Option TsType) :=
  if s.isTok .colon then
    (parse_ts_type_or_type_predicate_ann rec .colon s).bind fun t s1 =>
    .ok (some t) s1
  else .ok none s

/-- `tsParseThisTypePredicate` (lines 248-274). -/
def parse_ts_this_type_predicate (rec : TypeRec) (hasAssertsKeyword : Bool)
    (s : PState) : PRes TsType :=
  let r := s.eatWord "is"
  if r.1 then
    (parse_ts_type_ann rec false r.2).bind fun ta s1 =>
    .ok (.typePredicate hasAssertsKeyword .thisType (some ta)) s1
  else .ok (.typePredicate hasAssertsKeyword .thisType none) r.2

/-- `tsParseTypeArguments` (lines 2668-2698).  The lexer-context escape
(`ts_in_no_context`) and `set_expr_allowed` only alter lexing and are
identity on the materialized buffer; `<<` is split via the lexer's
token-splitting operation. -/
def parse_ts_type_args (rec : TypeRec) (fuel : Nat) (s : PState) :
    PRes (List TsType) :=
  (in_type (fun p =>
    (if p.isTok .ltlt then .ok () p.cutLshift else pExpect .ltTok p).bind
      fun _ p1 =>
    parse_ts_delimited_list .typeParametersOrArguments
      (fun q => rec .full q) fuel p1) s).bind fun params s1 =>
  (pExpect .gtTok s1).bind fun _ s2 =>
  .ok params s2

/-- Modifier loop of `tsParseTypeParameter` (lines 418-462), carrying
the `(is_in, is_out, is_const)` flags. -/
def parse_ts_type_param_mod_loop (permitInOut permitConst : Bool) :
    Nat → Bool × Bool × Bool → PState → PRes (Bool × Bool × Bool)
  | 0, _, s => .err .fuelExhausted s
  | fuel+1, flags, s =>
      (parse_ts_modifier
        ["public", "private", "protected", "readonly", "abstract", "const",
         "override", "in", "out"] false s).bind fun m s1 =>
      match m with
      | none => .ok flags s1
      | some mo =>
          let isIn := flags.1
          let isOut := flags.2.1
          let isConst := flags.2.2
          if mo = "const" then
            let s2 := if !permitConst then s1.emit_err (.ts1277 "const") else s1
            parse_ts_type_param_mod_loop permitInOut permitConst fuel
              (isIn, isOut, true) s2
          else if mo = "in" then
            let s2 :=
              if !permitInOut then s1.emit_err (.ts1274 "in")
              else if isIn then s1.emit_err (.ts1030 "in")
              else if isOut then s1.emit_err (.ts1029 "in" "out")
              else s1
            parse_ts_type_param_mod_loop permitInOut permitConst fuel
              (true, isOut, isConst) s2
          else if mo = "out" then
            let s2 :=
              if !permitInOut then s1.emit_err (.ts1274 "out")
              else if isOut then s1.emit_err (.ts1030 "out")
              else s1
            parse_ts_type_param_mod_loop permitInOut permitConst fuel
              (isIn, true, isConst) s2
          else
            parse_ts_type_param_mod_loop permitInOut permitConst fuel flags
              (s1.emit_err (.ts1273 mo))

/-- `tsParseTypeParameter` (lines 405-477). -/
def parse_ts_type_param (rec : TypeRec) (fuel : Nat)
    (permitInOut permitConst : Bool) (s : PState) : PRes TsTypeParam :=
  (parse_ts_type_param_mod_loop permitInOut permitConst fuel
    (false, false, false) s).bind fun flags s1 =>
  (in_type (fun q => parse_ident_name q) s1).bind fun name s2 =>
  (eat_then_parse_ts_type rec (Token.word "extends") s2).bind fun constraint s3 =>
  (eat_then_parse_ts_type rec Token.eqTok s3).bind fun defaultTy s4 =>
  .ok (TsTypeParam.mk name flags.1 flags.2.1 flags.2.2 constraint defaultTy) s4

/-- `tsParseTypeParameters` (`parse_ts_type_params`, lines 480-508). -/
def parse_ts_type_params (rec : TypeRec) (fuel : Nat)
    (permitInOut permitConst : Bool) (s : PState) : PRes (List TsTypeParam) :=
  in_type (fun p =>
    if !(p.isTok .ltTok) then .err (.syn (.unexpectedTok "< (jsx tag start)")) p
    else
      parse_ts_bracketed_list .typeParametersOrArguments
        (fun q => parse_ts_type_param rec fuel permitInOut permitConst q)
        false true fuel p.bump) s

/-- `tsTryParseTypeParameters` (lines 2011-2026). -/
def try_parse_ts_type_params (rec : TypeRec) (fuel : Nat)
    (permitInOut permitConst : Bool) (s : PState) :
    PRes (Option (List TsTypeParam)) :=
  if s.isTok .ltTok then
    (parse_ts_type_params rec fuel permitInOut permitConst s).bind fun ps s1 =>
    .ok (some ps) s1
  else .ok none s

/-- `tsParseTypeReference` (lines 218-246): entity name, then -- if no
line break intervenes -- an optional generic instantiation. -/
def parse_ts_type_ref (rec : TypeRec) (fuel : Nat) (s : PState) : PRes TsType :=
  (eat_any_ts_modifier s).bind fun hasModifier s1 =>
  (parse_ts_entity_name fuel true s1).bind fun typeName s2 =>
  (if !s2.hadLineBreakBeforeCur && s2.isTok .ltTok then
      with_ctx { s2.ctx with shouldNotLexLtOrGtAsType := false }
        (fun q => (parse_ts_type_args rec fuel q).bind fun args q1 =>
          .ok (some args) q1) s2
    else .ok none s2).bind fun typeParams s3 =>
  let s4 := if hasModifier then s3.emit_err .ts2369 else s3
  .ok (.ref typeName typeParams) s4

/-- `parse_ts_call_options` (lines 352-370): the `with`-attributes
object of an import type. -/
def parse_ts_call_options (fuel : Nat) (s : PState) : PRes Bool :=
  (pExpect .lbrace s).bind fun _ s1 =>
  (pExpectWord "with" s1).bind fun _ s2 =>
  (pExpect .colon s2).bind fun _ s3 =>
  (parse_object_expr fuel s3).bind fun _ s4 =>
  let r := s4.eat .comma
  (pExpect .rbrace r.2).bind fun _ s5 =>
  .ok true s5

/-- `tsParseImportType` (lines 287-350): `import ( specifier )` with a
TS1141 recovery for a non-string specifier, optional attributes,
optional dotted qualifier and optional generic instantiation. -/
def parse_ts_import_type (rec : TypeRec) (fuel : Nat) (s : PState) :
    PRes TsImportTypeNode :=
  (pExpectWord "import" s).bind fun _ s1 =>
  (pExpect .lparen s1).bind fun _ s2 =>
  ((match s2.cur with
   | none => .err (.syn .unexpectedEof) s2
   | some (Token.str v raw) => .ok (v, some raw) s2.bump
   | some _ =>
       .ok ("", (some "\"\"" : Option String)) (s2.bump.emit_err .ts1141) :
     PRes (String × Option String))).bind fun arg s3 =>
  let r := s3.eat .comma
  (if r.1 && r.2.importAttributesSyntax && r.2.isTok .lbrace then
      (parse_ts_call_options fuel r.2).bind fun b s4 => .ok b s4
    else .ok false r.2).bind fun attributes s4 =>
  (pExpect .rparen s4).bind fun _ s5 =>
  let qr := s5.eat .dot
  (if qr.1 then
      (parse_ts_entity_name fuel false qr.2).bind fun n s6 => .ok (some n) s6
    else .ok none qr.2).bind fun qualifier s6 =>
  (if s6.isTok .ltTok then
      with_ctx { s6.ctx with shouldNotLexLtOrGtAsType := false }
        (fun q => (parse_ts_type_args rec fuel q).bind fun args q1 =>
          .ok (some args) q1) s6
    else .ok none s6).bind fun typeArgs s7 =>
  .ok { arg := arg.1, argRaw := arg.2, qualifier, typeArgs, attributes } s7

/-- `tsParseTypeQuery` (lines 372-401): `typeof` over an import type or
an entity name, with optional type arguments when no line break
intervenes. -/
def parse_ts_type_query (rec : TypeRec) (fuel : Nat) (s : PState) : PRes TsType :=
  (pExpectWord "typeof" s).bind fun _ s1 =>
  (if s1.isWord "import" then
      (parse_ts_import_type rec fuel s1).bind fun it s2 =>
      .ok (TsTypeQueryExpr.importType it.arg it.argRaw it.qualifier
        it.typeArgs it.attributes) s2
    else
      (parse_ts_entity_name fuel true s1).bind fun n s2 =>
      .ok (TsTypeQueryExpr.entityName n) s2).bind fun exprName s2 =>
  (if !s2.hadLineBreakBeforeCur && s2.isTok .ltTok then
      with_ctx { s2.ctx with shouldNotLexLtOrGtAsType := false }
        (fun q => (parse_ts_type_args rec fuel q).bind fun args q1 =>
          .ok (some args) q1) s2
    else .ok none s2).bind fun typeArgs s3 =>
  .ok (.typeQuery exprName typeArgs) s3

/-- Modelled from the spec: collaborator `parse_formal_params`
(formal-parameter-list parsing), reduced to identifier and rest
parameters with optional `?` and optional type annotations, stopping
before `)`. -/
def parse_formal_params_loop (rec : TypeRec) : Nat → List Pat → PState → PRes (List Pat)
  | 0, _, s => .err .fuelExhausted s
  | fuel+1, acc, s =>
      if s.isTok .rparen then .ok acc s
      else
        let r := s.eat .dotDotDot
        match r.2.cur with
        | some (Token.word sym) =>
            let s1 := r.2.bump
            let q := s1.eat .question
            (try_parse_ts_type_ann rec q.2).bind fun ta s2 =>
            let pat := if r.1 then Pat.restPat (.identPat sym q.1 none) ta
                       else Pat.identPat sym q.1 ta
            let c := s2.eat .comma
            parse_formal_params_loop rec fuel (acc ++ [pat]) c.2
        | _ => .err (.syn (.unexpectedTok "parameter")) r.2

/-- Modelled from the spec: collaborator `parse_formal_params`. -/
def parse_formal_params (rec : TypeRec) (fuel : Nat) (s : PState) : PRes (List Pat) :=
  parse_formal_params_loop rec fuel [] s

/-- `tsParseBindingListForSignature` (lines 1942-1968): formal
parameters converted to `TsFnParam`s, then the closing `)`. -/
def parse_ts_binding_list_for_signature (rec : TypeRec) (fuel : Nat)
    (s : PState) : PRes (List TsFnParam) :=
  (parse_formal_params rec fuel s).bind fun params s1 =>
  let list := params.map (fun p =>
    match p with
    | .identPat sym opt ta => TsFnParam.identFn sym opt ta
    | .arrayPat => TsFnParam.arrayFn
    | .objectPat => TsFnParam.objectFn
    | .restPat arg ta => TsFnParam.restFn arg ta)
  (pExpect .rparen s1).bind fun _ s2 =>
  .ok list s2

/-- `tsParseFunctionOrConstructorType` (lines 1826-1867). -/
def parse_ts_fn_or_constructor_type (rec : TypeRec) (fuel : Nat)
    (isFnType : Bool) (s : PState) : PRes TsType :=
  let ar := if !isFnType then s.eatWord "abstract" else (false, s)
  (if !isFnType then pExpectWord "new" ar.2 else .ok () ar.2).bind fun _ s1 =>
  (try_parse_ts_type_params rec fuel false true s1).bind fun typeParams s2 =>
  (pExpect .lparen s2).bind fun _ s3 =>
  (parse_ts_binding_list_for_signature rec fuel s3).bind fun params s4 =>
  (parse_ts_type_or_type_predicate_ann rec .arrow s4).bind fun typeAnn s5 =>
  .ok (if isFnType then TsType.fnType typeParams params typeAnn
       else TsType.constructorType typeParams params typeAnn ar.1) s5

/-- `tsParseMappedTypeParameter` (lines 1619-1635). -/
def parse_ts_mapped_type_param (rec : TypeRec) (s : PState) : PRes TsTypeParam :=
  (parse_ident_name s).bind fun name s1 =>
  (expect_then_parse_ts_type rec (Token.word "in") "in" s1).bind fun c s2 =>
  .ok (TsTypeParam.mk name false false false (some c) none) s2

/-- `tsParseMappedType` (lines 1638-1690). -/
def parse_ts_mapped_type (rec : TypeRec) (s : PState) : PRes TsType :=
  (pExpect .lbrace s).bind fun _ s1 =>
  (if s1.isTok .plus || s1.isTok .minus then
      let ro := if s1.isTok .plus then TruePlusMinus.plus else TruePlusMinus.minus
      (pExpectWord "readonly" s1.bump).bind fun _ s2 => .ok (some ro) s2
    else
      let r := s1.eatWord "readonly"
      if r.1 then .ok (some TruePlusMinus.truePM) r.2
      else .ok none r.2).bind fun readonly s2 =>
  (pExpect .lbracket s2).bind fun _ s3 =>
  (parse_ts_mapped_type_param rec s3).bind fun typeParam s4 =>
  (let r := s4.eatWord "as"
   if r.1 then
     (rec .full r.2).bind fun t s5 => .ok (some t) s5
   else .ok none r.2).bind fun nameType s5 =>
  (pExpect .rbracket s5).bind fun _ s6 =>
  (if s6.isTok .plus || s6.isTok .minus then
      let o := if s6.isTok .plus then TruePlusMinus.plus else TruePlusMinus.minus
      (pExpect .question s6.bump).bind fun _ s7 => .ok (some o) s7
    else
      let r := s6.eat .question
      if r.1 then .ok (some TruePlusMinus.truePM) r.2
      else .ok none r.2).bind fun optional s7 =>
  (try_parse_ts_type rec s7).bind fun typeAnn s8 =>
  (pExpect .semi s8).bind fun _ s9 =>
  (pExpect .rbrace s9).bind fun _ s10 =>
  .ok (.mappedType readonly typeParam nameType optional typeAnn) s10

/-- Interleaving loop of `parse_ts_tpl_type_elements`
(lines 1927-1934). -/
def parse_ts_tpl_loop (rec : TypeRec) : Nat → List TsType → List TplElem → Bool → PState → PRes (List TsType × List TplElem)
  | 0, _, _, _, s => .err .fuelExhausted s
  | fuel+1, types, quasis, isTail, s =>
      if isTail then .ok (types, quasis) s
      else
        (pExpect .dollarBrace s).bind fun _ s1 =>
        (rec .full s1).bind fun ty s2 =>
        (pExpect .rbrace s2).bind fun _ s3 =>
        (parse_tpl_element s3).bind fun elem s4 =>
        parse_ts_tpl_loop rec fuel (types ++ [ty]) (quasis ++ [elem]) elem.tail s4

/-- `parse_ts_tpl_type_elements` (lines 1914-1937). -/
def parse_ts_tpl_type_elements (rec : TypeRec) (fuel : Nat) (s : PState) :
    PRes (List TsType × List TplElem) :=
  (parse_tpl_element s).bind fun curElem s1 =>
  parse_ts_tpl_loop rec fuel [] [curElem] curElem.tail s1

/-- `tsParseTemplateLiteralType` (lines 1896-1912). -/
def parse_ts_tpl_lit_type (rec : TypeRec) (fuel : Nat) (s : PState) : PRes TsLit :=
  (pExpect .backtick s).bind fun _ s1 =>
  (parse_ts_tpl_type_elements rec fuel s1).bind fun tq s2 =>
  (pExpect .backtick s2).bind fun _ s3 =>
  .ok (TsLit.tpl tq.1 tq.2) s3

/-- `tsParseLiteralTypeNode` (lines 1870-1893). -/
def parse_ts_lit_type_node (rec : TypeRec) (fuel : Nat) (s : PState) : PRes TsType :=
  if s.isTok .backtick then
    (parse_ts_tpl_lit_type rec fuel s).bind fun tl s1 => .ok (.litType tl) s1
  else
    (parse_lit s).bind fun l s1 =>
    .ok (.litType (match l with
      | .bigint v r => TsLit.bigInt v r
      | .bool v => TsLit.bool v
      | .num v r => TsLit.number v r
      | .str v r => TsLit.str v r)) s1

/-- `tsTryParseIndexSignature` (lines 1345-1389): committed only when
the bounded lookahead recognizes `[ ident :` (or `,` for recovery). -/
def try_parse_ts_index_signature (rec : TypeRec) (readonly isStatic : Bool)
    (s : PState) : PRes (Option TsTypeElement) :=
  ((if s.isTok .lbracket then
      match ts_look_ahead is_ts_unambiguously_index_signature s with
      | .ok b => .ok b s
      | .error e => .err e s
    else .ok false s : PRes Bool)).bind fun cand s0 =>
  if !cand then .ok none s0
  else
    (pExpect .lbracket s0).bind fun _ s1 =>
    (parse_ident_name s1).bind fun id s2 =>
    (let r := s2.eat .comma
     if r.1 then .ok () (r.2.emit_err .ts1096)
     else pExpect .colon r.2).bind fun _ s3 =>
    (parse_ts_type_ann rec false s3).bind fun ta s4 =>
    (pExpect .rbracket s4).bind fun _ s5 =>
    (try_parse_ts_type_ann rec s5).bind fun tyAnn s6 =>
    (parse_ts_type_member_semicolon s6).bind fun _ s7 =>
    .ok (some (TsTypeElement.indexSignature readonly isStatic
      [TsFnParam.identFn id false (some ta)] tyAnn)) s7

/-- `tsParseSignatureMember` (lines 1288-1331). -/
def parse_ts_signature_member (rec : TypeRec) (fuel : Nat)
    (kind : SignatureParsingMode) (s : PState) : PRes TsTypeElement :=
  (if kind = SignatureParsingMode.tsConstructSignatureDeclaration then
      pExpectWord "new" s
    else .ok () s).bind fun _ s1 =>
  (try_parse_ts_type_params rec fuel false true s1).bind fun typeParams s2 =>
  (pExpect .lparen s2).bind fun _ s3 =>
  (parse_ts_binding_list_for_signature rec fuel s3).bind fun params s4 =>
  (if s4.isTok .colon then
      (parse_ts_type_or_type_predicate_ann rec .colon s4).bind fun t s5 =>
      .ok (some t) s5
    else .ok none s4).bind fun typeAnn s5 =>
  (parse_ts_type_member_semicolon s5).bind fun _ s6 =>
  .ok (match kind with
       | .tsCallSignatureDeclaration =>
           TsTypeElement.callSignatureDecl typeParams params typeAnn
       | .tsConstructSignatureDeclaration =>
           TsTypeElement.constructSignatureDecl typeParams params typeAnn) s6

/-- `tsParsePropertyOrMethodSignature` (lines 1423-1473): key, optional
`?`, then a method signature when `(`/`<` follows (a preceding
`readonly` is a hard failure there), else a property signature. -/
def parse_ts_property_or_method_signature (rec : TypeRec) (fuel : Nat)
    (readonly : Bool) (s : PState) : PRes TsTypeElement :=
  (parse_ts_property_name s).bind fun ck s1 =>
  let q := s1.eat .question
  let optional := q.1
  if q.2.isTok .lparen || q.2.isTok .ltTok then
    if readonly then .err (.syn .readOnlyMethod) q.2
    else
      (try_parse_ts_type_params rec fuel false true q.2).bind fun typeParams s2 =>
      (pExpect .lparen s2).bind fun _ s3 =>
      (parse_ts_binding_list_for_signature rec fuel s3).bind fun params s4 =>
      (if s4.isTok .colon then
          (parse_ts_type_or_type_predicate_ann rec .colon s4).bind fun t s5 =>
          .ok (some t) s5
        else .ok none s4).bind fun typeAnn s5 =>
      (parse_ts_type_member_semicolon s5).bind fun _ s6 =>
      .ok (.methodSignature ck.2 ck.1 optional typeParams params typeAnn) s6
  else
    (try_parse_ts_type_ann rec q.2).bind fun typeAnn s2 =>
    (parse_ts_type_member_semicolon s2).bind fun _ s3 =>
    .ok (.propertySignature readonly ck.2 ck.1 optional typeAnn) s3

/-- `tsParseTypeMember` (lines 1476-1561): call signature, construct
signature, optional `readonly` modifier, index signature, speculative
getter/setter accessor, then the generic property-or-method fall
through. -/
def parse_ts_type_member (rec : TypeRec) (fuel : Nat) (s : PState) :
    PRes TsTypeElement :=
  if s.isTok .lparen || s.isTok .ltTok then
    parse_ts_signature_member rec fuel .tsCallSignatureDeclaration s
  else
    ((if s.isWord "new" then
        match ts_look_ahead is_ts_start_of_construct_signature s with
        | .ok b => .ok b s
        | .error e => .err e s
      else .ok false s : PRes Bool)).bind fun isConstruct s0 =>
    if isConstruct then
      parse_ts_signature_member rec fuel .tsConstructSignatureDeclaration s0
    else
      (parse_ts_modifier ["readonly"] false s0).bind fun ro s1 =>
      let readonly := ro.isSome
      (try_parse_ts_index_signature rec readonly false s1).bind fun idx s2 =>
      match idx with
      | some i => .ok i s2
      | none =>
          let attempt := try_parse_ts (fun st =>
            if readonly then .err (.syn .getterSetterCannotBeReadonly) st
            else
              let g := st.eatWord "get"
              (if g.1 then .ok true g.2
               else (pExpectWord "set" g.2).bind fun _ st1 =>
                 .ok false st1).bind fun isGet st1 =>
              (parse_ts_property_name st1).bind fun ck st2 =>
              if isGet then
                (pExpect .lparen st2).bind fun _ st3 =>
                (pExpect .rparen st3).bind fun _ st4 =>
                (try_parse_ts_type_ann rec st4).bind fun ta st5 =>
                (parse_ts_type_member_semicolon st5).bind fun _ st6 =>
                .ok (some (TsTypeElement.getterSignature ck.2 ck.1 ta)) st6
              else
                (pExpect .lparen st2).bind fun _ st3 =>
                (parse_ts_binding_list_for_signature rec fuel st3).bind fun params st4 =>
                match params with
                | [] => .err (.syn .setterParamRequired) st4
                | param :: _ =>
                    (parse_ts_type_member_semicolon st4).bind fun _ st5 =>
                    .ok (some (TsTypeElement.setterSignature ck.2 ck.1 param)) st5) s2
          match attempt with
          | (some v, s3) => .ok v s3
          | (none, s3) => parse_ts_property_or_method_signature rec fuel readonly s3

/-- `tsParseObjectTypeMembers` (lines 1585-1593). -/
def parse_ts_object_type_members (rec : TypeRec) (fuel : Nat) (s : PState) :
    PRes (List TsTypeElement) :=
  (pExpect .lbrace s).bind fun _ s1 =>
  (parse_ts_list .typeMembers (fun q => parse_ts_type_member rec fuel q)
    fuel s1).bind fun members s2 =>
  (pExpect .rbrace s2).bind fun _ s3 =>
  .ok members s3

/-- `tsParseTypeLiteral` (lines 1573-1582). -/
def parse_ts_type_lit (rec : TypeRec) (fuel : Nat) (s : PState) : PRes TsType :=
  (parse_ts_object_type_members rec fuel s).bind fun members s1 =>
  .ok (.typeLit members) s1

/-- `tsParseTupleElementType` (lines 1769-1808): optional speculative
label, then rest / optional / plain element types. -/
def parse_ts_tuple_element_type (rec : TypeRec) (s : PState) : PRes TsTupleElement :=
  let lr := try_parse_ts_tuple_element_name s
  let r := lr.2.eat .dotDotDot
  if r.1 then
    (rec .full r.2).bind fun ta s1 =>
    .ok (.mk lr.1 (.restType ta)) s1
  else
    (rec .full r.2).bind fun ty s1 =>
    let q := s1.eat .question
    if q.1 then .ok (.mk lr.1 (.optionalType ty)) q.2
    else .ok (.mk lr.1 ty) q.2

/-- `tsParseTupleType` (lines 1693-1731): bracketed element list, then
the whole-list ordering validation (rest-type elements exempt; a plain
element type after an optional-type element is a hard diagnostic). -/
def parse_ts_tuple_type (rec : TypeRec) (fuel : Nat) (s : PState) : PRes TsType :=
  (parse_ts_bracketed_list .tupleElementTypes
    (fun q => parse_ts_tuple_element_type rec q) true false fuel s).bind
    fun elems s1 =>
  if tuple_elems_check false elems then .ok (.tupleType elems) s1
  else .err (.syn .tsRequiredAfterOptional) s1

/-- `tsParseParenthesizedType` (lines 1811-1823). -/
def parse_ts_parenthesized_type (rec : TypeRec) (s : PState) : PRes TsType :=
  (pExpect .lparen s).bind fun _ s1 =>
  (rec .full s1).bind fun ta s2 =>
  (pExpect .rparen s2).bind fun _ s3 =>
  .ok (.parenthesized ta) s3

/-- `tsParseNonArrayType` (lines 2028-2212): primary type dispatch on
the current token. -/
def parse_ts_non_array_type (rec : TypeRec) (fuel : Nat) (s : PState) : PRes TsType :=
  match s.cur with
  | none => .err (.syn .unexpectedEof) s
  | some t =>
      match t with
      | Token.word sym =>
          if t.isIdentTok || sym = "void" || sym = "yield" || sym = "null" ||
              sym = "await" || sym = "break" then
            if s.isWord "asserts" && s.peekIsWord "this" then
              (parse_ts_this_type_node s.bump).bind fun _ s2 =>
              parse_ts_this_type_predicate rec true s2
            else
              let kind : Option TsKeywordTypeKind :=
                if sym = "void" then some .tsVoidKeyword
                else if sym = "null" then some .tsNullKeyword
                else if sym = "any" then some .tsAnyKeyword
                else if sym = "boolean" then some .tsBooleanKeyword
                else if sym = "bigint" then some .tsBigIntKeyword
                else if sym = "never" then some .tsNeverKeyword
                else if sym = "number" then some .tsNumberKeyword
                else if sym = "object" then some .tsObjectKeyword
                else if sym = "string" then some .tsStringKeyword
                else if sym = "symbol" then some .tsSymbolKeyword
                else if sym = "unknown" then some .tsUnknownKeyword
                else if sym = "undefined" then some .tsUndefinedKeyword
                else if sym = "intrinsic" then some .tsIntrinsicKeyword
                else none
              let peekedIsDot := s.peekIsTok .dot
              match kind with
              | some k =>
                  if !peekedIsDot then .ok (.keyword k) s.bump
                  else parse_ts_type_ref rec fuel s
              | none => parse_ts_type_ref rec fuel s
          else if sym = "true" || sym = "false" then
            parse_ts_lit_type_node rec fuel s
          else if sym = "import" then
            (parse_ts_import_type rec fuel s).bind fun it s1 =>
            .ok (.importType it.arg it.argRaw it.qualifier it.typeArgs
              it.attributes) s1
          else if sym = "this" then
            (parse_ts_this_type_node s).bind fun _ s1 =>
            if !s1.hadLineBreakBeforeCur && s1.isWord "is" then
              parse_ts_this_type_predicate rec false s1
            else .ok TsType.thisType s1
          else if sym = "typeof" then
            parse_ts_type_query rec fuel s
          else
            .err (.syn (.unexpectedTok
              "an identifier, void, yield, null, await, break, a string literal, a numeric literal, true, false, a backtick, -, import, this, typeof, an opening brace, an opening bracket, an opening parenthesis")) s
      | Token.bigint _ _ => parse_ts_lit_type_node rec fuel s
      | Token.str _ _ => parse_ts_lit_type_node rec fuel s
      | Token.num _ _ => parse_ts_lit_type_node rec fuel s
      | Token.backtick => parse_ts_lit_type_node rec fuel s
      | Token.minus =>
          let s1 := s.bump
          match s1.cur with
          | none => .err (.syn .unexpectedEof) s1
          | some (Token.num _ _) =>
              (parse_lit s1).bind fun lit s2 =>
              (match lit with
               | Lit.num value raw =>
                   let newRaw := "-" ++ (match raw with
                     | some rw => rw
                     | none => toString value)
                   .ok (.litType (.number (-value) (some newRaw))) s2
               | _ => .err (.syn (.unexpectedTok
                   "numeric literal or bigint literal")) s2)
          | some (Token.bigint _ _) =>
              (parse_lit s1).bind fun lit s2 =>
              (match lit with
               | Lit.bigint value raw =>
                   let newRaw := "-" ++ (match raw with
                     | some rw => rw
                     | none => toString value)
                   .ok (.litType (.bigInt (-value) (some newRaw))) s2
               | _ => .err (.syn (.unexpectedTok
                   "numeric literal or bigint literal")) s2)
          | some _ =>
              .err (.syn (.unexpectedTok
                "numeric literal or bigint literal")) s1
      | Token.lbrace =>
          ((match ts_look_ahead is_ts_start_of_mapped_type s with
           | .ok b => .ok b s
           | .error e => .err e s : PRes Bool)).bind fun isMapped s0 =>
          if isMapped then parse_ts_mapped_type rec s0
          else parse_ts_type_lit rec fuel s0
      | Token.lbracket => parse_ts_tuple_type rec fuel s
      | Token.lparen => parse_ts_parenthesized_type rec s
      | _ =>
          .err (.syn (.unexpectedTok
            "an identifier, void, yield, null, await, break, a string literal, a numeric literal, true, false, a backtick, -, import, this, typeof, an opening brace, an opening bracket, an opening parenthesis")) s

/-- Suffix loop of `tsParseArrayTypeOrHigher` (lines 2221-2237): while no
line break precedes `[`, build array or indexed-access types. -/
def parse_ts_array_loop (rec : TypeRec) : Nat → Bool → TsType → PState → PRes TsType
  | 0, _, _, s => .err .fuelExhausted s
  | fuel+1, readonly, ty, s =>
      if s.hadLineBreakBeforeCur then .ok ty s
      else
        let r := s.eat .lbracket
        if r.1 then
          let r2 := r.2.eat .rbracket
          if r2.1 then parse_ts_array_loop rec fuel readonly (.arrayType ty) r2.2
          else
            (rec .full r2.2).bind fun indexType s1 =>
            (pExpect .rbracket s1).bind fun _ s2 =>
            parse_ts_array_loop rec fuel readonly
              (.indexedAccessType readonly ty indexType) s2
        else .ok ty r.2

/-- `tsParseArrayTypeOrHigher` (lines 2215-2240). -/
def parse_ts_array_type_or_higher (rec : TypeRec) (fuel : Nat)
    (readonly : Bool) (s : PState) : PRes TsType :=
  (parse_ts_non_array_type rec fuel s).bind fun ty s1 =>
  parse_ts_array_loop rec fuel readonly ty s1

/-- `tsParseInferType` (lines 2262-2290): `infer Name`, with an optional
`extends Constraint` obtained speculatively; the attempt reports
"no match" (abandoning the constraint) exactly when, after parsing the
constraint, conditional types are disallowed in the current context and
a bare `?` follows. -/
def parse_ts_infer_type (rec : TypeRec) (s : PState) : PRes TsInferType :=
  (pExpectWord "infer" s).bind fun _ s1 =>
  (parse_ident_name s1).bind fun typeParamName s2 =>
  let cr := try_parse_ts (fun st =>
    match pExpectWord "extends" st with
    | .err e st1 => .err e st1
    | .ok _ st1 =>
        match rec .nonConditional st1 with
        | .ok c st2 =>
            if st2.ctx.disallowConditionalTypes || !(st2.isTok .question) then
              .ok (some c) st2
            else .ok none st2
        | .err e st2 =>
            if st2.ctx.disallowConditionalTypes || !(st2.isTok .question) then
              .err e st2
            else .ok none st2) s2
  .ok { typeParam := TsTypeParam.mk typeParamName false false false cr.1 none } cr.2

/-- `tsParseTypeOperator` (lines 2243-2259). -/
def parse_ts_type_operator (rec : TypeRec) (op : TsTypeOperatorOp)
    (s : PState) : PRes TsType :=
  (match op with
   | .unique => pExpectWord "unique" s
   | .keyOf => pExpectWord "keyof" s
   | .readOnly => pExpectWord "readonly" s).bind fun _ s1 =>
  (rec .operatorOrHigher s1).bind fun typeAnn s2 =>
  .ok (.typeOperator op typeAnn) s2

/-- `tsParseTypeOperatorOrHigher` (lines 2293-2323): `keyof` / `unique` /
`readonly` operators, `infer`, or the array level with a threaded
`readonly` modifier. -/
def parse_ts_type_operator_or_higher (rec : TypeRec) (fuel : Nat)
    (s : PState) : PRes TsType :=
  let operator : Option TsTypeOperatorOp :=
    if s.isWord "keyof" then some .keyOf
    else if s.isWord "unique" then some .unique
    else if s.isWord "readonly" then some .readOnly
    else none
  match operator with
  | some op => parse_ts_type_operator rec op s
  | none =>
      if s.isWord "infer" then
        (parse_ts_infer_type rec s).bind fun it s1 =>
        .ok (TsType.inferType it.typeParam) s1
      else
        (parse_ts_modifier ["readonly"] false s).bind fun m s1 =>
        parse_ts_array_type_or_higher rec fuel m.isSome s1

/-- Collection loop of `tsParseUnionOrIntersectionType`
(lines 2746-2753): while the operator repeats, append constituents
parsed by the next-lower rule. -/
def parse_ts_uoi_rest (parseConstituentType : PState → PRes TsType)
    (operator : Token) : Nat → List TsType → PState → PRes (List TsType)
  | 0, _, s => .err .fuelExhausted s
  | fuel+1, types, s =>
      let r := s.eat operator
      if r.1 then
        (parseConstituentType r.2).bind fun ty s1 =>
        parse_ts_uoi_rest parseConstituentType operator fuel (types ++ [ty]) s1
      else .ok types s

/-- `tsParseUnionOrIntersectionType` (lines 2726-2770): optional leading
operator, one constituent via the next-lower rule, and -- only if the
operator repeats -- a flat n-ary node collecting every constituent;
otherwise the single constituent is returned unwrapped. -/
def parse_ts_union_or_intersection_type (kind : UnionOrIntersection)
    (parseConstituentType : PState → PRes TsType) (operator : Token)
    (fuel : Nat) (s : PState) : PRes TsType :=
  let lead := s.eat operator
  (parseConstituentType lead.2).bind fun ty s1 =>
  if s1.isTok operator then
    (parse_ts_uoi_rest parseConstituentType operator fuel [ty] s1).bind
      fun types s2 =>
    .ok (match kind with
         | .union => TsType.union types
         | .intersection => TsType.intersection types) s2
  else .ok ty s1

/-- `tsParseIntersectionTypeOrHigher` (lines 2701-2711). -/
def parse_ts_intersection_type_or_higher (rec : TypeRec) (fuel : Nat)
    (s : PState) : PRes TsType :=
  parse_ts_union_or_intersection_type .intersection
    (fun p => parse_ts_type_operator_or_higher rec fuel p) .amp fuel s

/-- `tsParseUnionTypeOrHigher` (lines 2714-2723). -/
def parse_ts_union_type_or_higher (rec : TypeRec) (fuel : Nat)
    (s : PState) : PRes TsType :=
  parse_ts_union_or_intersection_type .union
    (fun p => parse_ts_intersection_type_or_higher rec fuel p) .pipe fuel s

/-- `tsParseNonConditionalType` (lines 984-1004): function type,
constructor type, or the union level. -/
def parse_ts_non_conditional_type (rec : TypeRec) (fuel : Nat)
    (s : PState) : PRes TsType :=
  (is_ts_start_of_fn_type fuel s).bind fun fnStart s1 =>
  if fnStart then parse_ts_fn_or_constructor_type rec fuel true s1
  else if (s1.isWord "abstract" && s1.peekIsWord "new") || s1.isWord "new" then
    parse_ts_fn_or_constructor_type rec fuel false s1
  else parse_ts_union_type_or_higher rec fuel s1

/-- `tsParseType` (`parse_ts_type`, lines 942-981): parse a
non-conditional type; when no line break precedes the next token and
`extends` follows, parse the extends-type under
disallow-conditional-types, then `?`, true branch, `:`, false branch.
The surrounding scope clears the disallow-conditional-types flag and
restores the caller's flags on exit. -/
def parse_ts_type (rec : TypeRec) (fuel : Nat) (s : PState) : PRes TsType :=
  with_ctx { s.ctx with disallowConditionalTypes := false } (fun p =>
    (parse_ts_non_conditional_type rec fuel p).bind fun ty p1 =>
    if p1.hadLineBreakBeforeCur then .ok ty p1
    else
      let r := p1.eatWord "extends"
      if !r.1 then .ok ty r.2
      else
        (with_ctx { r.2.ctx with disallowConditionalTypes := true }
          (fun q => parse_ts_non_conditional_type rec fuel q) r.2).bind
          fun extendsType q1 =>
        (pExpect .question q1).bind fun _ q2 =>
        (rec .full q2).bind fun trueType q3 =>
        (pExpect .colon q3).bind fun _ q4 =>
        (rec .full q4).bind fun falseType q5 =>
        .ok (.conditional ty extendsType trueType falseType) q5) s

/-- The recursion knot: one unit of fuel buys one re-entry into the
precedence chain.  `ts_type_rec fuel` is the `rec` bundle every routine
above receives. -/
def ts_type_rec : Nat → TypeLevel → PState → PRes TsType
  | 0, _, s => .err .fuelExhausted s
  | fuel+1, lvl, s =>
      match lvl with
      | .full => parse_ts_type (ts_type_rec fuel) fuel s
      | .nonConditional => parse_ts_non_conditional_type (ts_type_rec fuel) fuel s
      | .operatorOrHigher => parse_ts_type_operator_or_higher (ts_type_rec fuel) fuel s

/-- `parse_type` (lines 933-937): the public entry point; enters the
in-type context and parses a full type. -/
def parse_type (fuel : Nat) (s : PState) : PRes TsType :=
  in_type (fun p => ts_type_rec fuel .full p) s

/-! ## Auxiliary definitions used by the verification statements -/

/-- A state holding the given tokens (no line breaks) in the in-type
context, as produced for a type-position parse. -/
def typeTokens (ts : List Token) : PState :=
  { tokens := ts.map (fun t => ⟨false, t⟩), ctx := { in_type := true } }

/-- Shorthand for a word token. -/
def wd (s : String) : Token := Token.word s

/-- A tuple element whose type carries the optional marker (`T?`,
producing a `TsOptionalType`). -/
def isOptionalElem (e : TsTupleElement) : Bool :=
  match e.ty with
  | TsType.optionalType _ => true
  | _ => false

/-- A tuple element whose type is a rest type (`...T`). -/
def isRestElem (e : TsTupleElement) : Bool :=
  match e.ty with
  | TsType.restType _ => true
  | _ => false

/-- A plain tuple element: neither rest-typed nor optional-typed. -/
def isPlainElem (e : TsTupleElement) : Bool :=
  !isRestElem e && !isOptionalElem e

/-! ## Theorems -/

/-- Claim C1: if the operation run under `try_parse_ts` signals
"no match" (`Ok(None)`) or raises a hard failure (`Err`), the snapshot
is discarded entirely: the live parser state is exactly the state
before the call -- the cursor does not move, the flag set is unchanged,
and no diagnostics are appended to the sink. -/
theorem try_parse_ts_no_match_or_failure_discards_snapshot {α : Type}
    (op : PState → PRes (Option α)) (s : PState)
    (h : (∃ s1, op { s with ctx := { s.ctx with ignoreError := true } } = .ok none s1) ∨
         (∃ e s1, op { s with ctx := { s.ctx with ignoreError := true } } = .err e s1)) :
    try_parse_ts op s = (none, s) ∧
    (try_parse_ts op s).2.tokens = s.tokens ∧
    (try_parse_ts op s).2.ctx = s.ctx ∧
    (try_parse_ts op s).2.errors = s.errors := by
  unfold try_parse_ts
  rcases h with ⟨s1, h⟩ | ⟨e, s1, h⟩ <;> simp [h]

/-- Witness for C1: a concrete no-match operation leaves a concrete
state untouched. -/
theorem try_parse_ts_discard_witness :
    try_parse_ts (fun st => .ok (none : Option Nat) st.bump)
        { tokens := [⟨false, Token.comma⟩] } =
      (none, { tokens := [⟨false, Token.comma⟩] }) :=
  (try_parse_ts_no_match_or_failure_discards_snapshot _ _ (Or.inl ⟨_, rfl⟩)).1

/-- Claim C2: if the operation run under `try_parse_ts` signals success
(`Ok(Some(v))`), the live parser state is replaced by the snapshot's
final state (cursor advanced, flags taken over with the previous
ignore-errors bit restored), the produced value is returned, and the
snapshot state's diagnostics sink -- holding whatever the committed run
accumulated -- becomes the live sink. -/
theorem try_parse_ts_success_commits_snapshot {α : Type}
    (op : PState → PRes (Option α)) (s : PState) (v : α) (s1 : PState)
    (h : op { s with ctx := { s.ctx with ignoreError := true } } = .ok (some v) s1) :
    try_parse_ts op s =
      (some v, { s1 with ctx := { s1.ctx with ignoreError := s.ctx.ignoreError } }) ∧
    (try_parse_ts op s).2.tokens = s1.tokens ∧
    (try_parse_ts op s).2.errors = s1.errors := by
  unfold try_parse_ts
  simp [h]

/-- Witness for C2: a concrete successful operation that advances the
cursor and accumulates a diagnostic commits both into the live state. -/
theorem try_parse_ts_commit_witness :
    try_parse_ts
        (fun st => .ok (some 7) { st.bump with errors := st.errors ++ [SynErr.ts1005] })
        { tokens := [⟨false, Token.comma⟩] } =
      (some 7, { tokens := [], errors := [SynErr.ts1005] }) := by
  have h := try_parse_ts_success_commits_snapshot
    (fun st => PRes.ok (some 7) { st.bump with errors := st.errors ++ [SynErr.ts1005] })
    { tokens := [⟨false, Token.comma⟩] } 7
    { tokens := [], ctx := { ignoreError := true }, errors := [SynErr.ts1005] } rfl
  exact h.1.trans rfl

/-- Claim C5: in type position, whenever the cursor holds `-` and the
next token is ANY numeric literal with value `v` and raw text `raw`,
`parse_ts_non_array_type` consumes both tokens and returns a single
number literal-type node with value `-v` and raw `"-" ++ raw` (no
unary-expression wrapper); likewise for any bigint literal, yielding a
bigint literal-type node with negated value and re-prefixed raw; `-`
followed by ANY other token is a hard failure that consumes only the
`-`; and in expression position (collaborator expression parser,
modelled from the spec) the same `-` before any numeric literal stays
an explicit unary-minus expression over the unnegated literal.
Concrete instances: `-1`, `-1n`, `-x`, and `-1` in expression
position. -/
theorem negative_literal_type_folding :
    (∀ (rec : TypeRec) (fuel : Nat) (s : PState) (v : Int) (raw : String),
      s.cur = some Token.minus →
      s.bump.cur = some (Token.num v raw) →
      parse_ts_non_array_type rec fuel s =
        .ok (.litType (.number (-v) (some ("-" ++ raw)))) s.bump.bump) ∧
    (∀ (rec : TypeRec) (fuel : Nat) (s : PState) (v : Int) (raw : String),
      s.cur = some Token.minus →
      s.bump.cur = some (Token.bigint v raw) →
      parse_ts_non_array_type rec fuel s =
        .ok (.litType (.bigInt (-v) (some ("-" ++ raw)))) s.bump.bump) ∧
    (∀ (rec : TypeRec) (fuel : Nat) (s : PState) (t : Token),
      s.cur = some Token.minus →
      s.bump.cur = some t →
      (∀ v raw, t ≠ Token.num v raw) →
      (∀ v raw, t ≠ Token.bigint v raw) →
      parse_ts_non_array_type rec fuel s =
        .err (.syn (.unexpectedTok "numeric literal or bigint literal"))
          s.bump) ∧
    (∀ (s : PState) (v : Int) (raw : String),
      s.cur = some Token.minus →
      s.bump.cur = some (Token.num v raw) →
      parse_unary_expr s =
        .ok (.unaryE "-" (.litE (.num v (some raw)))) s.bump.bump) ∧
    ts_type_rec 30 .full (typeTokens [.minus, .num 1 "1"]) =
      .ok (.litType (.number (-1) (some "-1")))
        { tokens := [], ctx := { in_type := true } } ∧
    ts_type_rec 30 .full (typeTokens [.minus, .bigint 1 "1n"]) =
      .ok (.litType (.bigInt (-1) (some "-1n")))
        { tokens := [], ctx := { in_type := true } } ∧
    parse_ts_non_array_type (ts_type_rec 30) 30 (typeTokens [.minus, wd "x"]) =
      .err (.syn (.unexpectedTok "numeric literal or bigint literal"))
        { tokens := [⟨false, wd "x"⟩], ctx := { in_type := true } } ∧
    parse_unary_expr { tokens := [⟨false, .minus⟩, ⟨false, .num 1 "1"⟩] } =
      .ok (.unaryE "-" (.litE (.num 1 (some "1")))) { tokens := [] } := by
  refine ⟨?_, ?_, ?_, ?_, rfl, rfl, rfl, rfl⟩
  · intro rec fuel s v raw hc hn
    unfold parse_ts_non_array_type
    rw [hc]
    show (match s.bump.cur with
      | none => PRes.err (PError.syn SynErr.unexpectedEof) s.bump
      | some (Token.num _ _) =>
          (parse_lit s.bump).bind fun lit s2 =>
          (match lit with
           | Lit.num value rw0 =>
               let newRaw := "-" ++ (match rw0 with
                 | some rw => rw
                 | none => toString value)
               PRes.ok (TsType.litType (TsLit.number (-value) (some newRaw))) s2
           | _ => PRes.err (PError.syn (SynErr.unexpectedTok
               "numeric literal or bigint literal")) s2)
      | some (Token.bigint _ _) =>
          (parse_lit s.bump).bind fun lit s2 =>
          (match lit with
           | Lit.bigint value rw0 =>
               let newRaw := "-" ++ (match rw0 with
                 | some rw => rw
                 | none => toString value)
               PRes.ok (TsType.litType (TsLit.bigInt (-value) (some newRaw))) s2
           | _ => PRes.err (PError.syn (SynErr.unexpectedTok
               "numeric literal or bigint literal")) s2)
      | some _ =>
          PRes.err (PError.syn (SynErr.unexpectedTok
            "numeric literal or bigint literal")) s.bump) = _
    rw [hn]
    unfold parse_lit
    rw [hn]
    rfl
  · intro rec fuel s v raw hc hn
    unfold parse_ts_non_array_type
    rw [hc]
    show (match s.bump.cur with
      | none => PRes.err (PError.syn SynErr.unexpectedEof) s.bump
      | some (Token.num _ _) =>
          (parse_lit s.bump).bind fun lit s2 =>
          (match lit with
           | Lit.num value rw0 =>
               let newRaw := "-" ++ (match rw0 with
                 | some rw => rw
                 | none => toString value)
               PRes.ok (TsType.litType (TsLit.number (-value) (some newRaw))) s2
           | _ => PRes.err (PError.syn (SynErr.unexpectedTok
               "numeric literal or bigint literal")) s2)
      | some (Token.bigint _ _) =>
          (parse_lit s.bump).bind fun lit s2 =>
          (match lit with
           | Lit.bigint value rw0 =>
               let newRaw := "-" ++ (match rw0 with
                 | some rw => rw
                 | none => toString value)
               PRes.ok (TsType.litType (TsLit.bigInt (-value) (some newRaw))) s2
           | _ => PRes.err (PError.syn (SynErr.unexpectedTok
               "numeric literal or bigint literal")) s2)
      | some _ =>
          PRes.err (PError.syn (SynErr.unexpectedTok
            "numeric literal or bigint literal")) s.bump) = _
    rw [hn]
    unfold parse_lit
    rw [hn]
    rfl
  · intro rec fuel s t hc hn hnum hbig
    unfold parse_ts_non_array_type
    rw [hc]
    show (match s.bump.cur with
      | none => PRes.err (PError.syn SynErr.unexpectedEof) s.bump
      | some (Token.num _ _) =>
          (parse_lit s.bump).bind fun lit s2 =>
          (match lit with
           | Lit.num value rw0 =>
               let newRaw := "-" ++ (match rw0 with
                 | some rw => rw
                 | none => toString value)
               PRes.ok (TsType.litType (TsLit.number (-value) (some newRaw))) s2
           | _ => PRes.err (PError.syn (SynErr.unexpectedTok
               "numeric literal or bigint literal")) s2)
      | some (Token.bigint _ _) =>
          (parse_lit s.bump).bind fun lit s2 =>
          (match lit with
           | Lit.bigint value rw0 =>
               let newRaw := "-" ++ (match rw0 with
                 | some rw => rw
                 | none => toString value)
               PRes.ok (TsType.litType (TsLit.bigInt (-value) (some newRaw))) s2
           | _ => PRes.err (PError.syn (SynErr.unexpectedTok
               "numeric literal or bigint literal")) s2)
      | some _ =>
          PRes.err (PError.syn (SynErr.unexpectedTok
            "numeric literal or bigint literal")) s.bump) = _
    rw [hn]
    cases t with
    | num v raw => exact absurd rfl (hnum v raw)
    | bigint v raw => exact absurd rfl (hbig v raw)
    | word sym => rfl
    | str v raw => rfl
    | tplElement v raw => rfl
    | backtick => rfl
    | dollarBrace => rfl
    | lparen => rfl
    | rparen => rfl
    | lbrace => rfl
    | rbrace => rfl
    | lbracket => rfl
    | rbracket => rfl
    | ltTok => rfl
    | gtTok => rfl
    | ltlt => rfl
    | comma => rfl
    | semi => rfl
    | colon => rfl
    | question => rfl
    | dot => rfl
    | dotDotDot => rfl
    | eqTok => rfl
    | arrow => rfl
    | minus => rfl
    | plus => rfl
    | pipe => rfl
    | amp => rfl
    | hash => rfl
    | star => rfl
  · intro s v raw hc hn
    unfold parse_unary_expr
    rw [hc]
    unfold parse_lit
    rw [hn]

/-- Witness for the universal parts of Claim C5's theorem, at fresh
concrete inputs: `-2` as a type, `-(` as a type (hard failure), and
`-2` as an expression. -/
theorem negative_literal_type_folding_witness :
    parse_ts_non_array_type (ts_type_rec 30) 30
        (typeTokens [.minus, .num 2 "2"]) =
      .ok (.litType (.number (-2) (some "-2")))
        { tokens := [], ctx := { in_type := true } } ∧
    parse_ts_non_array_type (ts_type_rec 30) 30
        (typeTokens [.minus, .bigint 2 "2n"]) =
      .ok (.litType (.bigInt (-2) (some "-2n")))
        { tokens := [], ctx := { in_type := true } } ∧
    parse_ts_non_array_type (ts_type_rec 30) 30
        (typeTokens [.minus, .lparen]) =
      .err (.syn (.unexpectedTok "numeric literal or bigint literal"))
        { tokens := [⟨false, .lparen⟩], ctx := { in_type := true } } ∧
    parse_unary_expr { tokens := [⟨false, .minus⟩, ⟨false, .num 2 "2"⟩] } =
      .ok (.unaryE "-" (.litE (.num 2 (some "2")))) { tokens := [] } := by
  have h1 := negative_literal_type_folding.1 (ts_type_rec 30) 30
    (typeTokens [.minus, .num 2 "2"]) 2 "2" rfl rfl
  have h2 := negative_literal_type_folding.2.1 (ts_type_rec 30) 30
    (typeTokens [.minus, .bigint 2 "2n"]) 2 "2n" rfl rfl
  have h3 := negative_literal_type_folding.2.2.1 (ts_type_rec 30) 30
    (typeTokens [.minus, .lparen]) Token.lparen rfl rfl
    (fun v raw h => Token.noConfusion h) (fun v raw h => Token.noConfusion h)
  have h4 := negative_literal_type_folding.2.2.2.1
    { tokens := [⟨false, .minus⟩, ⟨false, .num 2 "2"⟩] } 2 "2" rfl rfl
  exact ⟨h1.trans rfl, h2.trans rfl, h3.trans rfl, h4.trans rfl⟩

/-- Claim C3: `parse_ts_type` first parses a non-conditional type and
returns it unchanged when a line break precedes the next token or that
token is not `extends`; otherwise it parses the extends-type under the
disallow-conditional-types flag, requires `?`, a full recursive
true-branch parse, `:`, and a full recursive false-branch parse (flags
restored on exit); consequently
`A extends B ? C extends D ? E : F : G` parses right-to-left, with the
inner conditional over C, D, E, F as true branch and G as false
branch. -/
theorem parse_ts_type_conditional_structure :
    (∀ (rec : TypeRec) (fuel : Nat) (s : PState) (ty : TsType) (s1 : PState),
      parse_ts_non_conditional_type rec fuel
          { s with ctx := { s.ctx with disallowConditionalTypes := false } } =
        .ok ty s1 →
      (s1.hadLineBreakBeforeCur = true ∨ s1.isWord "extends" = false) →
      parse_ts_type rec fuel s = .ok ty { s1 with ctx := s.ctx }) ∧
    (∀ (rec : TypeRec) (fuel : Nat) (s : PState) (ty : TsType) (s1 : PState)
       (ext : TsType) (s2 : PState) (tb : TsType) (q3 : PState)
       (fb : TsType) (q5 : PState),
      parse_ts_non_conditional_type rec fuel
          { s with ctx := { s.ctx with disallowConditionalTypes := false } } =
        .ok ty s1 →
      s1.hadLineBreakBeforeCur = false →
      s1.isWord "extends" = true →
      parse_ts_non_conditional_type rec fuel
          { s1.bump with ctx :=
            { s1.bump.ctx with disallowConditionalTypes := true } } = .ok ext s2 →
      ({ s2 with ctx := s1.bump.ctx } : PState).isTok .question = true →
      rec .full ({ s2 with ctx := s1.bump.ctx } : PState).bump = .ok tb q3 →
      q3.isTok .colon = true →
      rec .full q3.bump = .ok fb q5 →
      parse_ts_type rec fuel s =
        .ok (.conditional ty ext tb fb) { q5 with ctx := s.ctx }) ∧
    ts_type_rec 30 .full (typeTokens
      [wd "A", wd "extends", wd "B", .question,
       wd "C", wd "extends", wd "D", .question, wd "E", .colon, wd "F",
       .colon, wd "G"]) =
      .ok (.conditional (.ref (.ident "A") none) (.ref (.ident "B") none)
        (.conditional (.ref (.ident "C") none) (.ref (.ident "D") none)
          (.ref (.ident "E") none) (.ref (.ident "F") none))
        (.ref (.ident "G") none))
        { tokens := [], ctx := { in_type := true } } := by
  refine ⟨?_, ?_, rfl⟩
  · intro rec fuel s ty s1 h1 h2
    unfold parse_ts_type with_ctx
    simp only [h1, PRes.bind]
    rcases h2 with h2 | h2
    · simp [h2]
    · simp [PState.eatWord, PState.eat, PState.isTok, PState.isWord] at h2 ⊢
      simp [h2]
  · intro rec fuel s ty s1 ext s2 tb q3 fb q5 h1 h2 h3 h4 h5 h6 h7 h8
    unfold parse_ts_type with_ctx
    simp only [h1, PRes.bind, h2, Bool.false_eq_true, if_false]
    simp only [PState.isWord] at h3
    simp only [PState.eatWord, PState.eat, PState.isTok, h3, if_true]
    simp only [h4, PRes.bind, pExpect, PState.isTok]
    simp only [PState.isTok] at h5
    simp only [h5, if_true, PRes.bind, h6]
    simp only [PState.isTok] at h7
    simp only [h7, if_true, PRes.bind, h8]
    simp

/-- Witness for C3: both general parts applied at concrete inputs --
`A` alone takes the no-conditional path, `A extends B ? E : G` the
conditional path. -/
theorem parse_ts_type_conditional_structure_witness :
    parse_ts_type (ts_type_rec 20) 20 (typeTokens [wd "A"]) =
      .ok (.ref (.ident "A") none)
        { tokens := [], ctx := { in_type := true } } ∧
    parse_ts_type (ts_type_rec 20) 20 (typeTokens
      [wd "A", wd "extends", wd "B", .question, wd "E", .colon, wd "G"]) =
      .ok (.conditional (.ref (.ident "A") none) (.ref (.ident "B") none)
        (.ref (.ident "E") none) (.ref (.ident "G") none))
        { tokens := [], ctx := { in_type := true } } :=
  ⟨(parse_ts_type_conditional_structure.1 (ts_type_rec 20) 20
      (typeTokens [wd "A"]) (.ref (.ident "A") none)
      { tokens := [], ctx := { in_type := true } } rfl (Or.inr rfl)).trans rfl,
   (parse_ts_type_conditional_structure.2.1 (ts_type_rec 20) 20
      (typeTokens [wd "A", wd "extends", wd "B", .question, wd "E", .colon,
        wd "G"])
      (.ref (.ident "A") none)
      { tokens := ([wd "extends", wd "B", .question, wd "E", .colon,
          wd "G"]).map (fun t => ⟨false, t⟩), ctx := { in_type := true } }
      (.ref (.ident "B") none)
      { tokens := ([Token.question, wd "E", .colon, wd "G"]).map
          (fun t => ⟨false, t⟩),
        ctx := { in_type := true, disallowConditionalTypes := true } }
      (.ref (.ident "E") none)
      { tokens := ([Token.colon, wd "G"]).map (fun t => ⟨false, t⟩),
        ctx := { in_type := true } }
      (.ref (.ident "G") none)
      { tokens := [], ctx := { in_type := true } }
      rfl rfl rfl rfl rfl rfl rfl rfl).trans rfl⟩

/-- Claim C4: the shared union/intersection routine parses one
constituent with the next-lower rule; a run with exactly one constituent
returns it unwrapped, and when the operator repeats every constituent is
collected into a single flat n-ary union or intersection node (never a
nested binary tree); intersection is the next-lower rule under union,
so `A | B & C` parses as a 2-element union whose second element is the
2-element intersection of B and C. -/
theorem union_intersection_flat_nary_structure :
    (∀ (kind : UnionOrIntersection) (pct : PState → PRes TsType)
       (operator : Token) (fuel : Nat) (s : PState) (ty : TsType) (s1 : PState),
      pct (s.eat operator).2 = .ok ty s1 →
      s1.isTok operator = false →
      parse_ts_union_or_intersection_type kind pct operator fuel s = .ok ty s1) ∧
    (∀ (kind : UnionOrIntersection) (pct : PState → PRes TsType)
       (operator : Token) (fuel : Nat) (s : PState) (ty : TsType) (s1 : PState)
       (types : List TsType) (s2 : PState),
      pct (s.eat operator).2 = .ok ty s1 →
      s1.isTok operator = true →
      parse_ts_uoi_rest pct operator fuel [ty] s1 = .ok types s2 →
      parse_ts_union_or_intersection_type kind pct operator fuel s =
        .ok (match kind with
             | .union => TsType.union types
             | .intersection => TsType.intersection types) s2) ∧
    (∀ (rec : TypeRec) (fuel : Nat) (s : PState),
      parse_ts_union_type_or_higher rec fuel s =
        parse_ts_union_or_intersection_type .union
          (fun p => parse_ts_intersection_type_or_higher rec fuel p) .pipe
          fuel s) ∧
    ts_type_rec 30 .full (typeTokens [wd "A", .pipe, wd "B", .amp, wd "C"]) =
      .ok (.union [.ref (.ident "A") none,
        .intersection [.ref (.ident "B") none, .ref (.ident "C") none]])
        { tokens := [], ctx := { in_type := true } } := by
  refine ⟨?_, ?_, fun rec fuel s => rfl, rfl⟩
  · intro kind pct operator fuel s ty s1 h1 h2
    unfold parse_ts_union_or_intersection_type
    simp only [h1, PRes.bind, h2, Bool.false_eq_true, if_false]
  · intro kind pct operator fuel s ty s1 types s2 h1 h2 h3
    unfold parse_ts_union_or_intersection_type
    simp only [h1, PRes.bind, h2, if_true, h3]

/-- Witness for C4: the general parts applied at concrete inputs -- a
single-constituent run returning the constituent unwrapped, and a
repeated-operator run collecting a flat two-element union. -/
theorem union_intersection_flat_nary_witness :
    parse_ts_union_or_intersection_type .union
        (fun p => parse_ts_intersection_type_or_higher (ts_type_rec 20) 20 p)
        .pipe 20 (typeTokens [wd "A"]) =
      .ok (.ref (.ident "A") none)
        { tokens := [], ctx := { in_type := true } } ∧
    parse_ts_union_or_intersection_type .union
        (fun p => parse_ts_intersection_type_or_higher (ts_type_rec 20) 20 p)
        .pipe 20 (typeTokens [wd "A", .pipe, wd "B"]) =
      .ok (.union [.ref (.ident "A") none, .ref (.ident "B") none])
        { tokens := [], ctx := { in_type := true } } :=
  ⟨(union_intersection_flat_nary_structure.1 .union
      (fun p => parse_ts_intersection_type_or_higher (ts_type_rec 20) 20 p)
      .pipe 20
      (typeTokens [wd "A"]) (.ref (.ident "A") none)
      { tokens := [], ctx := { in_type := true } } rfl rfl),
   (union_intersection_flat_nary_structure.2.1 .union
      (fun p => parse_ts_intersection_type_or_higher (ts_type_rec 20) 20 p)
      .pipe 20
      (typeTokens [wd "A", .pipe, wd "B"]) (.ref (.ident "A") none)
      { tokens := ([Token.pipe, wd "B"]).map (fun t => ⟨false, t⟩),
        ctx := { in_type := true } }
      [.ref (.ident "A") none, .ref (.ident "B") none]
      { tokens := [], ctx := { in_type := true } } rfl rfl rfl).trans rfl⟩

/-- Reshaping of the tuple ordering validation on a cons cell: rest-typed
elements are skipped, optional-typed elements set the flag, and a plain
element fails exactly when the flag is set. -/
theorem tuple_elems_check_cons (b : Bool) (e : TsTupleElement)
    (rest : List TsTupleElement) :
    tuple_elems_check b (e :: rest) =
      if isRestElem e then tuple_elems_check b rest
      else if isOptionalElem e then tuple_elems_check true rest
      else if b then false else tuple_elems_check b rest := by
  obtain ⟨lab, ty⟩ := e
  cases ty <;>
    simp [tuple_elems_check, isRestElem, isOptionalElem, TsTupleElement.ty]

/-- A rest-typed tuple element is not optional-typed. -/
theorem isOptionalElem_eq_false_of_rest (e : TsTupleElement)
    (h : isRestElem e = true) : isOptionalElem e = false := by
  obtain ⟨lab, ty⟩ := e
  cases ty <;> simp_all [isRestElem, isOptionalElem, TsTupleElement.ty]

/-- With the seen-optional flag already set, the validation fails exactly
when some plain element occurs anywhere in the remaining list. -/
theorem tuple_check_true_false_iff (l : List TsTupleElement) :
    tuple_elems_check true l = false ↔ ∃ p ∈ l, isPlainElem p = true := by
  induction l with
  | nil => simp [tuple_elems_check]
  | cons e rest ih =>
      obtain ⟨lab, ty⟩ := e
      cases ty <;>
        simp [tuple_elems_check, isPlainElem, isRestElem, isOptionalElem,
          TsTupleElement.ty, ih]

/-- The tuple ordering validation fails exactly when an optional-typed
element is followed (not necessarily adjacently) by a plain element:
one that is neither rest-typed nor optional-typed. -/
theorem tuple_check_false_false_iff (l : List TsTupleElement) :
    tuple_elems_check false l = false ↔
      ∃ o p, isOptionalElem o = true ∧ isPlainElem p = true ∧
        List.Sublist [o, p] l := by
  induction l with
  | nil => simp [tuple_elems_check]
  | cons e rest ih =>
      rw [tuple_elems_check_cons]
      by_cases hr : isRestElem e = true
      · simp only [hr, if_true]
        rw [ih]
        constructor
        · rintro ⟨o, p, ho, hp, hs⟩
          exact ⟨o, p, ho, hp, hs.cons e⟩
        · rintro ⟨o, p, ho, hp, hs⟩
          rcases List.sublist_cons_iff.1 hs with hs | ⟨r, heq, hrs⟩
          · exact ⟨o, p, ho, hp, hs⟩
          · injection heq with h1 h2
            rw [h1, isOptionalElem_eq_false_of_rest e hr] at ho
            cases ho
      · by_cases hoE : isOptionalElem e = true
        · simp only [hr, hoE, if_true, Bool.false_eq_true, if_false]
          rw [tuple_check_true_false_iff]
          constructor
          · rintro ⟨p, hpmem, hp⟩
            exact ⟨e, p, hoE, hp, List.Sublist.cons₂ e (List.singleton_sublist.2 hpmem)⟩
          · rintro ⟨o, p, ho, hp, hs⟩
            rcases List.sublist_cons_iff.1 hs with hs | ⟨r, heq, hrs⟩
            · exact ⟨p, hs.subset (by simp), hp⟩
            · injection heq with h1 h2
              subst h2
              exact ⟨p, List.singleton_sublist.1 hrs, hp⟩
        · simp only [hr, hoE, Bool.false_eq_true, if_false]
          rw [ih]
          constructor
          · rintro ⟨o, p, ho, hp, hs⟩
            exact ⟨o, p, ho, hp, hs.cons e⟩
          · rintro ⟨o, p, ho, hp, hs⟩
            rcases List.sublist_cons_iff.1 hs with hs | ⟨r, heq, hrs⟩
            · exact ⟨o, p, ho, hp, hs⟩
            · injection heq with h1 h2
              rw [h1] at ho
              exact absurd ho hoE

/-- Counterexample for C6: `[a: string, b?: number, c: boolean]` does NOT
fail -- the `?` of `b?` sits on the label, the element's type stays a
plain keyword type, the ordering validation never sees an optional
element, and the tuple parses without any diagnostic. -/
theorem tuple_labeled_optional_no_diagnostic_counterexample :
    parse_ts_tuple_type (ts_type_rec 30) 30 (typeTokens
      [.lbracket, wd "a", .colon, wd "string", .comma,
       wd "b", .question, .colon, wd "number", .comma,
       wd "c", .colon, wd "boolean", .rbracket]) =
      .ok (.tupleType
        [.mk (some (.identPat "a" false none)) (.keyword .tsStringKeyword),
         .mk (some (.identPat "b" true none)) (.keyword .tsNumberKeyword),
         .mk (some (.identPat "c" false none)) (.keyword .tsBooleanKeyword)])
        { tokens := [], ctx := { in_type := true } } := rfl

/-- Amended claim C6: after parsing the element list, the validation
raises the hard `TsRequiredAfterOptional` failure exactly when an
element whose TYPE is an optional type (`T?` form) is followed by an
element whose type is neither a rest type nor an optional type;
optionality or restness written on a LABEL (`b?: T`, `...r: T`) is
invisible to it.  So `[string, number?, boolean]` fails,
`[a: string, b?: number, c: boolean]` parses clean,
`[a: string, ...rest: number[]]` parses clean with the second element's
label a rest pattern, and a rest-typed element after an optional-typed
one is exempt. -/
theorem tuple_ordering_validation_amended :
    (∀ (rec : TypeRec) (fuel : Nat) (s : PState)
       (elems : List TsTupleElement) (s1 : PState),
      parse_ts_bracketed_list .tupleElementTypes
          (fun q => parse_ts_tuple_element_type rec q) true false fuel s =
        .ok elems s1 →
      parse_ts_tuple_type rec fuel s =
        (if tuple_elems_check false elems then .ok (.tupleType elems) s1
         else .err (.syn .tsRequiredAfterOptional) s1)) ∧
    (∀ elems : List TsTupleElement,
      tuple_elems_check false elems = false ↔
        ∃ o p, isOptionalElem o = true ∧ isPlainElem p = true ∧
          List.Sublist [o, p] elems) ∧
    parse_ts_tuple_type (ts_type_rec 30) 30 (typeTokens
      [.lbracket, wd "string", .comma, wd "number", .question, .comma,
       wd "boolean", .rbracket]) =
      .err (.syn .tsRequiredAfterOptional)
        { tokens := [], ctx := { in_type := true } } ∧
    parse_ts_tuple_type (ts_type_rec 30) 30 (typeTokens
      [.lbracket, wd "a", .colon, wd "string", .comma,
       .dotDotDot, wd "rest", .colon, wd "number", .lbracket, .rbracket,
       .rbracket]) =
      .ok (.tupleType
        [.mk (some (.identPat "a" false none)) (.keyword .tsStringKeyword),
         .mk (some (.restPat (.identPat "rest" false none) none))
           (.arrayType (.keyword .tsNumberKeyword))])
        { tokens := [], ctx := { in_type := true } } ∧
    parse_ts_tuple_type (ts_type_rec 30) 30 (typeTokens
      [.lbracket, wd "string", .question, .comma,
       .dotDotDot, wd "number", .lbracket, .rbracket, .rbracket]) =
      .ok (.tupleType
        [.mk none (.optionalType (.keyword .tsStringKeyword)),
         .mk none (.restType (.arrayType (.keyword .tsNumberKeyword)))])
        { tokens := [], ctx := { in_type := true } } := by
  refine ⟨?_, tuple_check_false_false_iff, rfl, rfl, rfl⟩
  intro rec fuel s elems s1 h
  unfold parse_ts_tuple_type
  simp only [h, PRes.bind]

/-- Witness for C6 (amended): the validation branch applied at a
concrete element list that fails the check. -/
theorem tuple_ordering_validation_witness :
    parse_ts_tuple_type (ts_type_rec 30) 30 (typeTokens
      [.lbracket, wd "string", .question, .comma, wd "boolean",
       .rbracket]) =
      .err (.syn .tsRequiredAfterOptional)
        { tokens := [], ctx := { in_type := true } } :=
  (tuple_ordering_validation_amended.1 (ts_type_rec 30) 30
    (typeTokens [.lbracket, wd "string", .question, .comma, wd "boolean",
      .rbracket])
    [.mk none (.optionalType (.keyword .tsStringKeyword)),
     .mk none (.keyword .tsBooleanKeyword)]
    { tokens := [], ctx := { in_type := true } } rfl).trans rfl

/-- Counterexample for C7: with the current context FORBIDDING
conditional types and a bare `?` following the parsed constraint
(`infer R extends S ?` under disallow-conditional-types), the
speculative attempt is NOT abandoned -- the constraint `S` is kept and
the `?` is left for the enclosing conditional. -/
theorem infer_constraint_kept_under_disallow_counterexample :
    parse_ts_infer_type (ts_type_rec 30)
      { tokens :=
          [⟨false, wd "infer"⟩, ⟨false, wd "R"⟩, ⟨false, wd "extends"⟩,
           ⟨false, wd "S"⟩, ⟨false, .question⟩],
        ctx := { in_type := true, disallowConditionalTypes := true } } =
      .ok { typeParam := .mk "R" false false false
              (some (.ref (.ident "S") none)) none }
        { tokens := [⟨false, .question⟩],
          ctx := { in_type := true, disallowConditionalTypes := true } } := rfl

/-- Amended claim C7: the speculative `extends Constraint` attempt of
`infer Name` reports "no match" -- leaving the infer type with no
constraint, exactly as if the attempt had failed (the state is the one
from before the attempt) -- precisely when the current context ALLOWS
conditional types and a bare `?` follows the parsed constraint;
otherwise (context forbids conditional types, or no `?` follows) the
parsed constraint is kept and the attempt commits. -/
theorem infer_constraint_abandon_amended :
    ∀ (rec : TypeRec) (s : PState) (name : String) (s1 : PState)
      (c : TsType) (s2 : PState),
      s.isWord "infer" = true →
      parse_ident_name s.bump = .ok name s1 →
      ({ s1 with ctx := { s1.ctx with ignoreError := true } } : PState).isWord
          "extends" = true →
      rec .nonConditional
          ({ s1 with ctx := { s1.ctx with ignoreError := true } } : PState).bump =
        .ok c s2 →
      parse_ts_infer_type rec s =
        (if s2.ctx.disallowConditionalTypes || !(s2.isTok .question) then
          .ok { typeParam := .mk name false false false (some c) none }
            { s2 with ctx := { s2.ctx with ignoreError := s1.ctx.ignoreError } }
        else
          .ok { typeParam := .mk name false false false none none } s1) := by
  intro rec s name s1 c s2 h0 h1 h2 h3
  unfold parse_ts_infer_type try_parse_ts
  simp only [PState.isWord] at h0 h2
  simp only [pExpectWord, pExpect, PState.isTok, h0, h2, if_true, PRes.bind,
    h1, h3]
  by_cases hd : s2.ctx.disallowConditionalTypes = true ∨
      ¬s2.cur = some Token.question
  · simp [hd, PState.isTok]
  · simp [hd, PState.isTok]

/-- Witness for C7 (amended): with conditional types allowed and `?`
following, the constraint is abandoned and the state is exactly the one
from before the attempt. -/
theorem infer_constraint_abandon_witness :
    parse_ts_infer_type (ts_type_rec 30)
      { tokens :=
          [⟨false, wd "infer"⟩, ⟨false, wd "R"⟩, ⟨false, wd "extends"⟩,
           ⟨false, wd "S"⟩, ⟨false, .question⟩],
        ctx := { in_type := true } } =
      .ok { typeParam := .mk "R" false false false none none }
        { tokens := [⟨false, wd "extends"⟩, ⟨false, wd "S"⟩,
            ⟨false, .question⟩],
          ctx := { in_type := true } } :=
  (infer_constraint_abandon_amended (ts_type_rec 30)
    { tokens :=
        [⟨false, wd "infer"⟩, ⟨false, wd "R"⟩, ⟨false, wd "extends"⟩,
         ⟨false, wd "S"⟩, ⟨false, .question⟩],
      ctx := { in_type := true } }
    "R"
    { tokens := [⟨false, wd "extends"⟩, ⟨false, wd "S"⟩, ⟨false, .question⟩],
      ctx := { in_type := true } }
    (.ref (.ident "S") none)
    { tokens := [⟨false, .question⟩],
      ctx := { in_type := true, ignoreError := true } }
    rfl rfl rfl rfl).trans rfl

/-- Counterexample for C8: a `readonly` modifier before a method
signature inside an object-type body is NOT handled as a recoverable
diagnostic -- `parse_ts_type_member` on `readonly m(): void;` aborts
with the hard failure `ReadOnlyMethod`: no member node is synthesized
and nothing is appended to the diagnostics sink. -/
theorem readonly_method_hard_failure_counterexample :
    parse_ts_type_member (ts_type_rec 30) 30 (typeTokens
      [wd "readonly", wd "m", .lparen, .rparen, .colon, wd "void", .semi]) =
      .err (.syn .readOnlyMethod)
        { tokens := [⟨false, .lparen⟩, ⟨false, .rparen⟩, ⟨false, .colon⟩,
                     ⟨false, wd "void"⟩, ⟨false, .semi⟩],
          ctx := { in_type := true } } := rfl

/-- Amended claim C8: when a `readonly` modifier precedes a member whose
key is followed by `(` or `<` (a method signature), the parser raises
the hard failure `ReadOnlyMethod` via `syntax_error!`: the member parse
aborts with no node, no diagnostic is recorded in the sink, and the
failure propagates out of the object-type member loop instead of
parsing continuing. -/
theorem readonly_method_hard_failure_amended :
    ∀ (rec : TypeRec) (fuel : Nat) (s : PState) (ck : Bool × Expr)
      (s1 : PState),
      parse_ts_property_name s = .ok ck s1 →
      ((s1.eat .question).2.isTok .lparen = true ∨
        (s1.eat .question).2.isTok .ltTok = true) →
      parse_ts_property_or_method_signature rec fuel true s =
        .err (.syn .readOnlyMethod) (s1.eat .question).2 := by
  intro rec fuel s ck s1 h1 h2
  unfold parse_ts_property_or_method_signature
  simp only [h1, PRes.bind]
  rcases h2 with h2 | h2 <;> simp [h2]

/-- Witness for C8 (amended): applied at the concrete member
`readonly m(): void;` (after the modifier has been consumed). -/
theorem readonly_method_hard_failure_witness :
    parse_ts_property_or_method_signature (ts_type_rec 30) 30 true (typeTokens
      [wd "m", .lparen, .rparen, .colon, wd "void", .semi]) =
      .err (.syn .readOnlyMethod)
        { tokens := [⟨false, .lparen⟩, ⟨false, .rparen⟩, ⟨false, .colon⟩,
                     ⟨false, wd "void"⟩, ⟨false, .semi⟩],
          ctx := { in_type := true } } :=
  (readonly_method_hard_failure_amended (ts_type_rec 30) 30
    (typeTokens [wd "m", .lparen, .rparen, .colon, wd "void", .semi])
    (false, Expr.identE "m")
    { tokens := [⟨false, .lparen⟩, ⟨false, .rparen⟩, ⟨false, .colon⟩,
                 ⟨false, wd "void"⟩, ⟨false, .semi⟩],
      ctx := { in_type := true } }
    rfl (Or.inl rfl)).trans rfl

/-- The collaborator identifier-name parser leaves the diagnostics sink
unchanged. -/
theorem parse_ident_name_errors (s : PState) :
    (parse_ident_name s).state.errors = s.errors := by
  unfold parse_ident_name
  split <;> simp [PRes.state, PState.bump]

/-- The collaborator identifier parser leaves the diagnostics sink
unchanged. -/
theorem parse_ident_errors (s : PState) :
    (parse_ident s).state.errors = s.errors := by
  unfold parse_ident
  split
  · split <;> simp [PRes.state, PState.bump]
  · simp [PRes.state]

/-- Either identifier parser leaves the diagnostics sink unchanged. -/
theorem parse_ident_name_or_errors (ar : Bool) (s : PState) :
    (if ar then parse_ident_name s else parse_ident s).state.errors =
      s.errors := by
  by_cases h : ar = true <;>
    simp [h, parse_ident_name_errors, parse_ident_errors]

/-- The dotted-chain loop of the entity-name parser only ever appends to
the diagnostics sink. -/
theorem parse_ts_entity_name_loop_errors (ar : Bool) :
    ∀ (fuel : Nat) (ent : TsEntityName) (s : PState),
      ∃ l, (parse_ts_entity_name_loop ar fuel ent s).state.errors =
        s.errors ++ l := by
  intro fuel
  induction fuel with
  | zero =>
      intro ent s
      exact ⟨[], by simp [parse_ts_entity_name_loop, PRes.state]⟩
  | succ n ih =>
      intro ent s
      unfold parse_ts_entity_name_loop
      by_cases hdot : s.isTok .dot = true
      · simp only [PState.eat, hdot, if_true]
        by_cases hguard :
            (!(s.bump.isTok .hash) && !(s.bump.isIdentName)) = true
        · refine ⟨if s.ctx.ignoreError then [] else [.ts1003], ?_⟩
          simp only [Bool.and_eq_true, Bool.not_eq_true', PState.bump]
            at hguard
          by_cases hig : s.ctx.ignoreError = true <;>
            simp [hguard, PRes.state, PState.emit_err, hig, PState.bump]
        · simp only [Bool.and_eq_true, Bool.not_eq_true', PState.bump]
            at hguard
          rcases hres : (if ar then parse_ident_name s.bump
            else parse_ident s.bump) with ⟨right, s2⟩ | ⟨e, s2⟩ <;>
            simp only [PState.bump] at hres
          · obtain ⟨l, hl⟩ := ih (.qualified ent right) s2
            have he : s2.errors = s.errors := by
              have h2 := parse_ident_name_or_errors ar s.bump
              rw [PState.bump] at h2
              rw [hres] at h2
              simpa [PRes.state] using h2
            refine ⟨l, ?_⟩
            rw [if_neg (by simpa [PState.bump] using hguard)]
            simpa [PRes.state, he] using hl
          · have he : s2.errors = s.errors := by
              have h2 := parse_ident_name_or_errors ar s.bump
              rw [PState.bump] at h2
              rw [hres] at h2
              simpa [PRes.state] using h2
            refine ⟨[], ?_⟩
            rw [if_neg (by simpa [PState.bump] using hguard)]
            simp [PRes.state, he]
      · exact ⟨[], by simp [PState.eat, hdot, PRes.state]⟩

/-- Inversion of a successful collaborator identifier-name parse. -/
theorem parse_ident_name_ok_elim {s : PState} {sym : String} {s1 : PState}
    (h : parse_ident_name s = .ok sym s1) :
    s.cur = some (Token.word sym) ∧ s1 = s.bump := by
  unfold parse_ident_name at h
  split at h
  next sym2 heq =>
    injection h with h1 h2
    subst h1
    exact ⟨heq, h2.symm⟩
  next => exact (PRes.noConfusion h)

/-- Claim C9: whenever the first identifier of an entity name is `void`
(and diagnostics are not suppressed), the entity-name parser appends a
TS1005 diagnostic right after consuming the `void` identifier, whatever
follows -- so the sink is never left without it; and the dotted
reference `void.Foo`, which primary-type dispatch routes to
type-reference parsing because of the following `.`, still yields a
type-reference node, with TS1005 recorded. -/
theorem void_entity_name_ts1005 :
    (∀ (fuel : Nat) (ar : Bool) (s : PState) (s1 : PState),
      parse_ident_name s = .ok "void" s1 →
      s.ctx.ignoreError = false →
      ∃ l, (parse_ts_entity_name fuel ar s).state.errors =
        s.errors ++ SynErr.ts1005 :: l) ∧
    parse_ts_non_array_type (ts_type_rec 30) 30 (typeTokens
      [wd "void", .dot, wd "Foo"]) =
      .ok (.ref (.qualified (.ident "void") "Foo") none)
        { tokens := [], ctx := { in_type := true },
          errors := [.ts1005] } := by
  refine ⟨?_, rfl⟩
  intro fuel ar s s1 h1 hig
  obtain ⟨hcur, hs1⟩ := parse_ident_name_ok_elim h1
  unfold parse_ts_entity_name
  simp only [h1]
  obtain ⟨l, hl⟩ := parse_ts_entity_name_loop_errors ar fuel (.ident "void")
    (s1.emit_err .ts1005)
  refine ⟨l, ?_⟩
  show (parse_ts_entity_name_loop ar fuel (.ident "void")
    (s1.emit_err .ts1005)).state.errors = _
  rw [hl]
  subst hs1
  simp [PState.emit_err, PState.bump, hig]

/-- Witness for C9: the general part applied to the concrete input
`void.Foo`. -/
theorem void_entity_name_ts1005_witness :
    ∃ l, (parse_ts_entity_name 10 true
        (typeTokens [wd "void", .dot, wd "Foo"])).state.errors =
      [] ++ SynErr.ts1005 :: l :=
  void_entity_name_ts1005.1 10 true (typeTokens [wd "void", .dot, wd "Foo"])
    { tokens := [⟨false, .dot⟩, ⟨false, wd "Foo"⟩],
      ctx := { in_type := true } } rfl rfl

/-- Claim C10: an enum member whose name is a numeric literal recovers
with diagnostic TS2452 and a string-valued member id -- value the
decimal string of the number, raw the original raw text wrapped in
double quotes; the member is produced (with any initializer after `=`),
and parsing of the enum body continues, as the two-member enum
`enum E { 1 = 2, B }` shows. -/
theorem enum_numeric_member_recovery :
    (∀ (s : PState) (v : Int) (raw : String),
      s.cur = some (.num v raw) → s.ctx.ignoreError = false →
      (({ s.bump with errors := s.errors ++ [SynErr.ts2452] } : PState).isTok
          .comma = true ∨
        ({ s.bump with errors := s.errors ++ [SynErr.ts2452] } : PState).isTok
          .rbrace = true) →
      parse_ts_enum_member s =
        .ok { id := .str (toString v) (some ("\"" ++ raw ++ "\"")),
              init := none }
          { s.bump with errors := s.errors ++ [SynErr.ts2452] }) ∧
    (∀ (s : PState) (v : Int) (raw : String) (e2 : Expr) (s2 : PState),
      s.cur = some (.num v raw) → s.ctx.ignoreError = false →
      ({ s.bump with errors := s.errors ++ [SynErr.ts2452] } : PState).isTok
        .eqTok = true →
      parse_assignment_expr
          ({ s.bump with errors := s.errors ++ [SynErr.ts2452] } :
            PState).bump = .ok e2 s2 →
      parse_ts_enum_member s =
        .ok { id := .str (toString v) (some ("\"" ++ raw ++ "\"")),
              init := some e2 } s2) ∧
    parse_ts_enum_decl 30 false { tokens :=
      [⟨false, wd "E"⟩, ⟨false, .lbrace⟩, ⟨false, .num 1 "1"⟩,
       ⟨false, .eqTok⟩, ⟨false, .num 2 "2"⟩, ⟨false, .comma⟩,
       ⟨false, wd "B"⟩, ⟨false, .rbrace⟩] } =
      .ok { declare := false, isConst := false, id := "E",
            members := [{ id := .str "1" (some "\"1\""),
                          init := some (.litE (.num 2 (some "2"))) },
                        { id := .ident "B", init := none }] }
        { tokens := [], errors := [.ts2452] } := by
  refine ⟨?_, ?_, rfl⟩
  · intro s v raw hcur hig hnext
    unfold parse_ts_enum_member
    simp only [hcur]
    have hemit : (s.bump.emit_err .ts2452) =
        { s.bump with errors := s.errors ++ [SynErr.ts2452] } := by
      simp [PState.emit_err, PState.bump, hig]
    rw [hemit]
    have hne : ({ s.bump with errors := s.errors ++ [SynErr.ts2452] } :
        PState).isTok .eqTok = false := by
      rcases hnext with h | h <;>
        simp only [PState.isTok] at h ⊢ <;>
        simp_all
    simp only [PState.eat, hne, Bool.false_eq_true, if_false]
    rcases hnext with h | h <;> simp [h]
  · intro s v raw e2 s2 hcur hig heq hassign
    unfold parse_ts_enum_member
    simp only [hcur]
    have hemit : (s.bump.emit_err .ts2452) =
        { s.bump with errors := s.errors ++ [SynErr.ts2452] } := by
      simp [PState.emit_err, PState.bump, hig]
    rw [hemit]
    simp only [PState.eat, heq, if_true, hassign]

/-- Witness for C10: both general parts applied at concrete members --
`1` before `}`, and `1 = 2` before `,`. -/
theorem enum_numeric_member_recovery_witness :
    parse_ts_enum_member { tokens := [⟨false, .num 1 "1"⟩, ⟨false, .rbrace⟩] } =
      .ok { id := .str "1" (some "\"1\""), init := none }
        { tokens := [⟨false, .rbrace⟩], errors := [.ts2452] } ∧
    parse_ts_enum_member { tokens :=
        [⟨false, .num 1 "1"⟩, ⟨false, .eqTok⟩, ⟨false, .num 2 "2"⟩,
         ⟨false, .comma⟩] } =
      .ok { id := .str "1" (some "\"1\""),
            init := some (.litE (.num 2 (some "2"))) }
        { tokens := [⟨false, .comma⟩], errors := [.ts2452] } :=
  ⟨(enum_numeric_member_recovery.1
      { tokens := [⟨false, .num 1 "1"⟩, ⟨false, .rbrace⟩] } 1 "1"
      rfl rfl (Or.inr rfl)).trans rfl,
   (enum_numeric_member_recovery.2.1
      { tokens :=
          [⟨false, .num 1 "1"⟩, ⟨false, .eqTok⟩, ⟨false, .num 2 "2"⟩,
           ⟨false, .comma⟩] } 1 "1" (.litE (.num 2 (some "2")))
      { tokens := [⟨false, .comma⟩], errors := [.ts2452] }
      rfl rfl rfl rfl).trans rfl⟩
